import Mathlib

/-!
# The Aral Sea what-if simulator

A shallow embedding of the scenario model of `src/js/simulator.js`
(`SimulatorController.calculateScenario` and the three impact functions it calls) and of the
state-changing methods of the timelapse, detective, map and audio controllers
(`src/js/timelapse.js`, `src/js/detective.js`, `src/js/maps.js`, `src/js/audio.js`),
followed by theorems about them.  Statements that only touch the page (elements, styles,
animations) are left out of the state; timers are modelled by the step their callback
performs.

## Number model

A JavaScript Number is modelled by `JSNumber`: either a finite value, kept *exactly* as a
rational number (decimal literals such as `53.4` denote their decimal value; rounding to
binary64 is not modelled), or `NaN`.  Infinities cannot arise: the inputs are finite and
every division in the source is by a non-zero literal.

Two expressions that are equal as rationals need not be equal as binary64 values when they
associate their operations differently: `(20.1 + x) - 20.1` is `x` here, and is not always
`x` in binary64.  The lemmas `waterConsumption_eq`, `seaLevelChange_eq`,
`projectedSeaLevel_eq`, `waterSaved_eq` and `environmentalImpact_eq` below are closed forms
of exact arithmetic in this sense.  The theorem on the form of `seaLevelChange`
(`calculateScenario_seaLevelChange_formula`) therefore states it by the expression that the
source evaluates, `(currentSeaLevel + seaLevelImprovement) - currentSeaLevel`, with the
operations in the order of the source.

## Property reads

The two lookup tables of `baselineData` are plain object literals, so a read `table[key]`
can also find a property inherited from `Object.prototype` (a function or an object, which
is truthy and converts to `NaN` in arithmetic).  `JSValue` keeps the three possible
outcomes of such a read apart.
-/

namespace AralSea

/-! ## JavaScript numbers -/

/-- A JavaScript Number: a finite value (exact rational) or NaN.  The operations below are
the exact ones: they do not round to binary64. -/
inductive JSNumber where
  | num (q : ℚ)
  | nan
  deriving DecidableEq

namespace JSNumber

/-- JavaScript `a + b` on Numbers. -/
def add : JSNumber → JSNumber → JSNumber
  | num a, num b => num (a + b)
  | _, _ => nan

/-- JavaScript `a - b` on Numbers. -/
def sub : JSNumber → JSNumber → JSNumber
  | num a, num b => num (a - b)
  | _, _ => nan

/-- JavaScript `a * b` on Numbers. -/
def mul : JSNumber → JSNumber → JSNumber
  | num a, num b => num (a * b)
  | _, _ => nan

/-- JavaScript `a / d` where `d` is a non-zero numeric literal (the only divisions in the
source are by `80`, `100`, `33.3`, `3`, `1000` and `2`). -/
def divLit : JSNumber → ℚ → JSNumber
  | num a, d => num (a / d)
  | nan, _ => nan

instance : Add JSNumber := ⟨add⟩
instance : Sub JSNumber := ⟨sub⟩
instance : Mul JSNumber := ⟨mul⟩

/-- JavaScript `Math.max(a, b)`: NaN as soon as one argument is NaN. -/
def mathMax : JSNumber → JSNumber → JSNumber
  | num a, num b => num (max a b)
  | _, _ => nan

/-- JavaScript `Math.min(a, b)`: NaN as soon as one argument is NaN. -/
def mathMin : JSNumber → JSNumber → JSNumber
  | num a, num b => num (min a b)
  | _, _ => nan

/-- JavaScript `a > b`: false as soon as one argument is NaN. -/
def gt : JSNumber → JSNumber → Bool
  | num a, num b => decide (a > b)
  | _, _ => false

/-- The relation `a <= b` of JavaScript as a proposition: it never holds for NaN. -/
def le : JSNumber → JSNumber → Prop
  | num a, num b => a ≤ b
  | _, _ => False

/-- The relation `a < b` of JavaScript as a proposition: it never holds for NaN. -/
def lt : JSNumber → JSNumber → Prop
  | num a, num b => a < b
  | _, _ => False

instance : LE JSNumber := ⟨le⟩
instance : LT JSNumber := ⟨lt⟩

instance (a b : JSNumber) : Decidable (a ≤ b) :=
  match a, b with
  | num x, num y => inferInstanceAs (Decidable (x ≤ y))
  | num _, nan => isFalse (fun h => h)
  | nan, _ => isFalse (fun h => h)

instance (a b : JSNumber) : Decidable (a < b) :=
  match a, b with
  | num x, num y => inferInstanceAs (Decidable (x < y))
  | num _, nan => isFalse (fun h => h)
  | nan, _ => isFalse (fun h => h)

/-- JavaScript `a < b`: false as soon as one argument is NaN. -/
def ltb : JSNumber → JSNumber → Bool
  | num a, num b => decide (a < b)
  | _, _ => false

/-- A Number is finite when it is not NaN. -/
def isFinite : JSNumber → Bool
  | num _ => true
  | nan => false

end JSNumber

open JSNumber

/-! ## Property reads on the lookup tables -/

/-- Outcome of a property read `table[key]` on an object literal whose own properties
are numbers. -/
inductive JSValue where
  /-- An own property: a number. -/
  | number (x : JSNumber)
  /-- A property inherited from `Object.prototype`: a function or an object. -/
  | object
  /-- No property of that name. -/
  | undefined
  deriving DecidableEq

namespace JSValue

/-- JavaScript `v || d` with a numeric default: `undefined`, `0` and NaN are falsy,
every other number and every function or object is truthy. -/
def orElse (v : JSValue) (d : JSNumber) : JSValue :=
  match v with
  | number (num q) => if q = 0 then number d else number (num q)
  | number nan => number d
  | object => object
  | undefined => number d

/-- Conversion of an operand to a Number, as done by `*=`: a function or a plain object
converts to NaN, and so does `undefined`. -/
def toNumber : JSValue → JSNumber
  | number x => x
  | object => nan
  | undefined => nan

end JSValue

/-- Names of the properties every object literal inherits from `Object.prototype`. -/
def objectPrototypeKeys : List String :=
  ["constructor", "hasOwnProperty", "isPrototypeOf", "propertyIsEnumerable",
   "toLocaleString", "toString", "valueOf", "__proto__", "__defineGetter__",
   "__defineSetter__", "__lookupGetter__", "__lookupSetter__"]

/-- The own property of an object literal (its entries in source order) under a key,
if there is one. -/
def ownProperty {κ : Type} [DecidableEq κ] : List (κ × ℚ) → κ → Option ℚ
  | [], _ => none
  | (k, v) :: rest, key => if key = k then some v else ownProperty rest key

/-- The read `table[key]` with a string key on an object literal with string-named
numeric own properties: own properties first, then the prototype. -/
def getByName (table : List (String × ℚ)) (key : String) : JSValue :=
  match ownProperty table key with
  | some q => JSValue.number (num q)
  | none => if key ∈ objectPrototypeKeys then JSValue.object else JSValue.undefined

/-- The read `table[key]` with a finite Number as key on an object literal whose own
property names are the canonical decimal forms of the listed numbers (`30: 1.5` has the
name "30").  The Number is converted to its string form, which names an own property
exactly when the Number equals that key, and which never names an inherited property. -/
def getByNumber (table : List (ℚ × ℚ)) (key : ℚ) : JSValue :=
  match ownProperty table key with
  | some q => JSValue.number (num q)
  | none => JSValue.undefined

/-! ## Data model of the simulator -/

/-- The scenario object: `{ irrigationEfficiency, cottonArea, waterPolicy }`, the two
numeric fields being finite Numbers. -/
structure Scenario where
  irrigationEfficiency : ℚ
  cottonArea : ℚ
  waterPolicy : String
  deriving DecidableEq

/-- The `waterDiversion` record of the baseline data. -/
structure WaterDiversion where
  agriculture : ℚ
  industry : ℚ
  domestic : ℚ
  other : ℚ
  deriving DecidableEq

/-- The object returned by `initializeBaselineData`. -/
structure BaselineData where
  historicalSeaLevel : ℚ
  currentSeaLevel : ℚ
  waterDiversion : WaterDiversion
  irrigationEfficiencyFactors : List (ℚ × ℚ)
  cottonWaterConsumption : ℚ
  policyImpacts : List (String × ℚ)
  deriving DecidableEq

/-- The object returned by `calculateEconomicImpact`. -/
structure EconomicImpact where
  totalCost : JSNumber
  totalBenefit : JSNumber
  netImpact : JSNumber
  description : String
  deriving DecidableEq

/-- The object returned by `calculateEnvironmentalImpact`. -/
structure EnvironmentalImpact where
  biodiversityScore : JSNumber
  saltStormReduction : JSNumber
  climateStability : JSNumber
  overallScore : JSNumber
  deriving DecidableEq

/-- The object returned by `calculateSocialImpact`. -/
structure SocialImpact where
  jobsLost : JSNumber
  jobsCreated : JSNumber
  netJobs : JSNumber
  healthImprovement : JSNumber
  displacementReduction : JSNumber
  overallScore : JSNumber
  deriving DecidableEq

/-- The object returned by `calculateScenario`. -/
structure ScenarioResult where
  projectedSeaLevel : JSNumber
  seaLevelChange : JSNumber
  waterConsumption : JSNumber
  waterSaved : JSNumber
  economicImpact : EconomicImpact
  environmentalImpact : EnvironmentalImpact
  socialImpact : SocialImpact
  scenario : Scenario
  deriving DecidableEq

/-- The fields of a `SimulatorController` that the constructor sets and that are not
references to page elements, and the property `lastResults`, which `getLastResults` reads
(`none` stands for a property that has no value, read as `undefined`). -/
structure SimulatorController where
  currentScenario : Scenario
  baselineData : BaselineData
  isInitialized : Bool
  lastResults : Option ScenarioResult
  deriving DecidableEq

namespace SimulatorController

/-- `initializeBaselineData()`. -/
def initializeBaselineData : BaselineData where
  historicalSeaLevel := 53.4
  currentSeaLevel := 20.1
  waterDiversion := { agriculture := 92, industry := 4, domestic := 3, other := 1 }
  irrigationEfficiencyFactors := [(30, 1.5), (45, 1.0), (60, 0.7), (75, 0.5), (90, 0.3)]
  cottonWaterConsumption := 2700
  policyImpacts := [("none", 1.0), ("moderate", 0.75), ("strict", 0.5)]

/-- The controller as the constructor leaves it. -/
def new : SimulatorController where
  currentScenario := { irrigationEfficiency := 45, cottonArea := 80, waterPolicy := "none" }
  baselineData := initializeBaselineData
  isInitialized := false
  lastResults := none

/-- `calculateEconomicImpact(scenario, waterConsumption)`. -/
def calculateEconomicImpact (scenario : Scenario) (waterConsumption : JSNumber) :
    EconomicImpact :=
  let agricultureCost := num (scenario.cottonArea * 0.8)
  let efficiencyInvestment := num ((scenario.irrigationEfficiency - 45) * 2)
  let policyCost : JSNumber :=
    if scenario.waterPolicy = "strict" then num 50
    else if scenario.waterPolicy = "moderate" then num 20 else num 0
  let waterSavingsBenefit := (num 100 - waterConsumption) * num 1.5
  let totalCost := agricultureCost + efficiencyInvestment + policyCost
  let netBenefit := waterSavingsBenefit - totalCost
  { totalCost := mathMax (num 0) totalCost
    totalBenefit := mathMax (num 0) waterSavingsBenefit
    netImpact := netBenefit
    description :=
      if gt netBenefit (num 0) then "Net Economic Benefit" else "Net Economic Cost" }

/-- `calculateEnvironmentalImpact(projectedSeaLevel)`. -/
def calculateEnvironmentalImpact (self : SimulatorController) (projectedSeaLevel : JSNumber) :
    EnvironmentalImpact :=
  let seaLevelImprovement := projectedSeaLevel - num self.baselineData.currentSeaLevel
  let biodiversityScore :=
    mathMin (num 100) (num 20 + (seaLevelImprovement.divLit 33.3) * num 80)
  let saltStormReduction := mathMin (num 100) ((seaLevelImprovement.divLit 33.3) * num 100)
  let climateStability :=
    mathMin (num 100) (num 30 + (seaLevelImprovement.divLit 33.3) * num 70)
  { biodiversityScore := mathMax (num 0) biodiversityScore
    saltStormReduction := mathMax (num 0) saltStormReduction
    climateStability := mathMax (num 0) climateStability
    overallScore :=
      mathMax (num 0)
        ((biodiversityScore + saltStormReduction + climateStability).divLit 3) }

/-- `calculateSocialImpact(scenario, projectedSeaLevel)`. -/
def calculateSocialImpact (self : SimulatorController) (scenario : Scenario)
    (projectedSeaLevel : JSNumber) : SocialImpact :=
  let seaLevelImprovement := projectedSeaLevel - num self.baselineData.currentSeaLevel
  let jobLoss := num ((80 - scenario.cottonArea) * 500)
  let newJobs : JSNumber :=
    if scenario.irrigationEfficiency > 45 then num ((scenario.irrigationEfficiency - 45) * 100)
    else num 0
  let healthImprovement := mathMin (num 100) ((seaLevelImprovement.divLit 33.3) * num 100)
  let displacementReduction :=
    mathMin (num 100) ((seaLevelImprovement.divLit 33.3) * num 100)
  { jobsLost := mathMax (num 0) jobLoss
    jobsCreated := mathMax (num 0) newJobs
    netJobs := newJobs - jobLoss
    healthImprovement := mathMax (num 0) healthImprovement
    displacementReduction := mathMax (num 0) displacementReduction
    overallScore :=
      mathMax (num 0)
        (((newJobs - jobLoss).divLit 1000) * num 50 + healthImprovement.divLit 2
          + displacementReduction.divLit 2) }

/-- `calculateScenario(scenario)`. -/
def calculateScenario (self : SimulatorController) (scenario : Scenario) : ScenarioResult :=
  let waterConsumption : JSNumber := num 100
  let efficiencyFactor :=
    (getByNumber self.baselineData.irrigationEfficiencyFactors
      scenario.irrigationEfficiency).orElse (num 1.0)
  let waterConsumption := waterConsumption * efficiencyFactor.toNumber
  let cottonFactor := num (scenario.cottonArea / 80)
  let waterConsumption := waterConsumption * cottonFactor
  let policyFactor :=
    (getByName self.baselineData.policyImpacts scenario.waterPolicy).orElse (num 1.0)
  let waterConsumption := waterConsumption * policyFactor.toNumber
  let waterSaved := num 100 - waterConsumption
  let seaLevelImprovement :=
    (waterSaved.divLit 100)
      * num (self.baselineData.historicalSeaLevel - self.baselineData.currentSeaLevel)
  let projectedSeaLevel := num self.baselineData.currentSeaLevel + seaLevelImprovement
  let economicImpact := calculateEconomicImpact scenario waterConsumption
  let environmentalImpact := self.calculateEnvironmentalImpact projectedSeaLevel
  let socialImpact := self.calculateSocialImpact scenario projectedSeaLevel
  { projectedSeaLevel := mathMax (num 20.1) (mathMin (num 53.4) projectedSeaLevel)
    seaLevelChange := projectedSeaLevel - num self.baselineData.currentSeaLevel
    waterConsumption := waterConsumption
    waterSaved := mathMax (num 0) waterSaved
    economicImpact := economicImpact
    environmentalImpact := environmentalImpact
    socialImpact := socialImpact
    scenario := scenario }

/-- The call `this.calculateScenario(scenario)` together with its effect on the controller:
the returned object and the controller after the call.  Neither the body of
`calculateScenario` nor the bodies of the three impact functions assign to a property of
`this`, and the result holds a copy `{ ...scenario }` of the argument, so the controller
comes back as it was. -/
def callCalculateScenario (self : SimulatorController) (scenario : Scenario) :
    ScenarioResult × SimulatorController :=
  (self.calculateScenario scenario, self)

/-- The controller after a sequence of earlier calls of `calculateScenario`, one for each
scenario of the list. -/
def afterCalls (self : SimulatorController) : List Scenario → SimulatorController
  | [] => self
  | scenario :: rest => afterCalls (callCalculateScenario self scenario).2 rest

/-- `generateFeedbackText(results)`: the text is built by appending to `feedback`. -/
def generateFeedbackText (results : ScenarioResult) : String :=
  let scenario := results.scenario
  let feedback := ""
  let feedback :=
    if gt results.seaLevelChange (num 10) then
      feedback ++ "<strong>Excellent Result!</strong> Your scenario could significantly restore the Aral Sea. "
    else if gt results.seaLevelChange (num 5) then
      feedback ++ "<strong>Good Progress!</strong> This scenario shows meaningful improvement. "
    else if gt results.seaLevelChange (num 0) then
      feedback ++ "<strong>Minor Improvement.</strong> Small steps in the right direction. "
    else
      feedback ++ "<strong>No Improvement.</strong> This scenario maintains current decline. "
  let feedback := feedback ++ "<br><br><strong>Analysis:</strong><br>"
  let feedback :=
    if scenario.irrigationEfficiency < 60 then
      feedback ++ "• Consider improving irrigation efficiency to reduce water waste.<br>"
    else feedback
  let feedback :=
    if scenario.cottonArea > 60 then
      feedback ++ "• Reducing cotton cultivation area could significantly help water conservation.<br>"
    else feedback
  let feedback :=
    if scenario.waterPolicy = "none" then
      feedback ++ "• Implementing water conservation policies would have major benefits.<br>"
    else feedback
  let feedback :=
    if ltb results.economicImpact.netImpact (num 0) then
      feedback ++ "• <span style=\"color: #e74c3c;\">Economic costs are high, but environmental benefits may justify investment.</span><br>"
    else feedback
  let feedback :=
    if ltb results.socialImpact.netJobs (num 0) then
      feedback ++ "• <span style=\"color: #f39c12;\">Job losses in agriculture could be offset by new green economy opportunities.</span><br>"
    else feedback
  let feedback :=
    feedback ++ "<br><strong>Tip:</strong> Try combining high irrigation efficiency (75%+), reduced cotton area (40% or less), and strict water policies for maximum impact!"
  feedback

/-- `runInitialSimulation()`: the result of `calculateScenario(this.currentScenario)` is
computed and dropped; the controller is left as it was. -/
def runInitialSimulation (self : SimulatorController) : SimulatorController :=
  (callCalculateScenario self self.currentScenario).2

/-- `runSimulation()`: the local `results` of the run and the controller after it.  The
statements before and after the computation (button state, visualization, feedback text,
detective clue) act on the page and on the detective controller only; no statement assigns
to a property of `this`. -/
def runSimulation (self : SimulatorController) : ScenarioResult × SimulatorController :=
  callCalculateScenario self self.currentScenario

/-- The `presets` table of `loadPreset`. -/
def presets : List (String × Scenario) :=
  [("current", { irrigationEfficiency := 45, cottonArea := 80, waterPolicy := "none" }),
   ("moderate", { irrigationEfficiency := 65, cottonArea := 60, waterPolicy := "moderate" }),
   ("aggressive", { irrigationEfficiency := 85, cottonArea := 30, waterPolicy := "strict" }),
   ("economic", { irrigationEfficiency := 55, cottonArea := 70, waterPolicy := "moderate" })]

/-- `loadPreset(presetName)`: for a name of the table the preset is copied into
`currentScenario` and the simulation is run; for a name that is neither in the table nor
inherited from `Object.prototype` nothing happens.  The result is `none` for an inherited
name, where `presets[presetName]` is a function or object whose copy `{ ...preset }` has
none of the three fields of a scenario. -/
def loadPreset (self : SimulatorController) (presetName : String) :
    Option SimulatorController :=
  match presets.lookup presetName with
  | some preset => some (runSimulation { self with currentScenario := preset }).2
  | none => if presetName ∈ objectPrototypeKeys then none else some self

/-- `initialize()` of the simulator controller: event listeners and display values concern
the page; then the initial simulation is run and `isInitialized` is set. -/
def initializeController (self : SimulatorController) : SimulatorController :=
  { runInitialSimulation self with isInitialized := true }

/-- `getLastResults()`: the value of `this.lastResults`. -/
def getLastResults (self : SimulatorController) : Option ScenarioResult :=
  self.lastResults

/-! ### The words of the specification -/

/-- The clamp of the specification: a Number restricted to [0, 100]. -/
def clamp (x : JSNumber) : JSNumber :=
  mathMax (num 0) (mathMin (num 100) x)

/-- The "nearest defined key" of the specification for an integer efficiency: the key of
the efficiency table (30, 45, 60, 75, 90) at the least distance, the lower key at equal
distances (no integer is at equal distances from two keys).  The source has no such
function; it is defined here to compare the code with the words of the specification. -/
def nearestKey (e : ℤ) : ℤ :=
  [45, 60, 75, 90].foldl
    (fun best k => if (e - k).natAbs < (e - best).natAbs then k else best) 30

/-! ### Closed forms used in the proofs -/

/-- The value of the local `efficiencyFactor` of `calculateScenario` as a function of the
efficiency, read off the table of `initializeBaselineData` and the `|| 1.0` default. -/
def efficiencyFactorOf (e : ℚ) : ℚ :=
  if e = 30 then 1.5 else if e = 45 then 1.0 else if e = 60 then 0.7
  else if e = 75 then 0.5 else if e = 90 then 0.3 else 1.0

/-- The value of the local `policyFactor` of `calculateScenario` for a policy name that is
not inherited from `Object.prototype`. -/
def policyFactorOf (p : String) : ℚ :=
  if p = "none" then 1.0 else if p = "moderate" then 0.75 else if p = "strict" then 0.5
  else 1.0

/-- The water consumption of a scenario whose policy name is not inherited, in closed form:
the value of `waterConsumption` after the three `*=` of `calculateScenario`. -/
def waterConsumptionOf (s : Scenario) : ℚ :=
  100 * efficiencyFactorOf s.irrigationEfficiency * (s.cottonArea / 80)
    * policyFactorOf s.waterPolicy

end SimulatorController

/-! ## The timelapse (`src/js/timelapse.js`, `src/js/main.js`) -/

/-- A record of the timelapse data: `{ image, notes, waterLevel }`. -/
structure TimelapseRecord where
  image : String
  notes : String
  waterLevel : ℚ
  deriving DecidableEq

namespace AralSeaInvestigation

/-- `initializeTimelapseData()`: the entries of the returned object literal, each key
(`1990`, ..., `2025`) given as the integer `parseInt` reads from it. -/
def initializeTimelapseData : List (Int × TimelapseRecord) :=
  [(1990, { image := "sample/WhatsApp Image 2025-08-29 at 17.40.49_37279892.jpg"
            notes := "1990: The Aral Sea appears full and vibrant, covering approximately 68,000 km². Fishing boats dot the waters, and coastal communities thrive."
            waterLevel := 53.4 }),
   (1995, { image := "sample/WhatsApp Image 2025-08-29 at 17.40.49_4e672a3f.jpg"
            notes := "1995: First signs of shrinkage become visible. The sea has begun to split into northern and southern parts due to dramatically reduced inflow."
            waterLevel := 45.2 }),
   (2000, { image := "sample/WhatsApp Image 2025-08-29 at 17.40.50_6415c799.jpg"
            notes := "2000: The division is now clear. Two separate bodies of water exist where once there was one magnificent sea. Salinity increases rapidly."
            waterLevel := 38.8 }),
   (2005, { image := "sample/WhatsApp Image 2025-08-29 at 17.40.50_9979000e.jpg"
            notes := "2005: The southern Aral Sea continues to shrink dramatically. Ships are now stranded far from any shoreline, creating an eerie ship graveyard."
            waterLevel := 32.1 }),
   (2010, { image := "sample/WhatsApp Image 2025-08-29 at 17.40.50_d26ef9c7.jpg"
            notes := "2010: What remains is a fraction of the original sea. The exposed seabed creates dust storms that spread salt and chemicals across the region."
            waterLevel := 28.5 }),
   (2015, { image := "sample/WhatsApp Image 2025-08-29 at 17.40.51_16f8bab1.jpg"
            notes := "2015: The eastern basin of the southern Aral Sea has completely dried up. Fishing industry collapse has devastated local communities."
            waterLevel := 25.3 }),
   (2020, { image := "sample/WhatsApp Image 2025-08-29 at 17.40.51_67d4a907.jpg"
            notes := "2020: Only small remnants remain of what was once a massive inland sea. Climate change accelerates the remaining water loss."
            waterLevel := 22.8 }),
   (2025, { image := "sample/WhatsApp Image 2025-08-29 at 17.40.51_d2ab72e6.jpg"
            notes := "2025: Today, less than 10% of the original Aral Sea remains. This environmental catastrophe serves as a stark warning for future water management."
            waterLevel := 20.1 })]

end AralSeaInvestigation

/-- The fields of a `TimelapseController` that are not references to page elements.
`playInterval` is `none` for `null` and `some ()` for the handle `setInterval` returned (a
non-zero number, hence truthy). -/
structure TimelapseController where
  currentYear : Int
  isPlaying : Bool
  playInterval : Option Unit
  timelapseData : List (Int × TimelapseRecord)
  playSpeed : Nat
  deriving DecidableEq

namespace TimelapseController

/-- The controller as the constructor leaves it. -/
def new : TimelapseController where
  currentYear := 1990
  isPlaying := false
  playInterval := none
  timelapseData := []
  playSpeed := 800

/-- `initialize(timelapseData)` of the timelapse controller: the data is stored; the event
listeners and the first display concern the page. -/
def initializeTimelapse (self : TimelapseController)
    (timelapseData : List (Int × TimelapseRecord)) : TimelapseController :=
  { self with timelapseData := timelapseData }

/-- `setYear(year)`: the display and the slider concern the page. -/
def setYear (self : TimelapseController) (year : Int) : TimelapseController :=
  { self with currentYear := year }

/-- `getAvailableYears()`, the expression `nextYear` and `previousYear` also evaluate:
`Object.keys(this.timelapseData).map(y => parseInt(y)).sort((a, b) => a - b)`. -/
def getAvailableYears (self : TimelapseController) : List Int :=
  (self.timelapseData.map Prod.fst).insertionSort (· ≤ ·)

/-- JavaScript `array.indexOf(x)`: the first index of `x`, or `-1` when it is absent. -/
def jsIndexOf (array : List Int) (x : Int) : Int :=
  if x ∈ array then (array.indexOf x : Int) else -1

/-- `nextYear()`.  The index `currentIndex + 1` read under the guard lies in the array
(`-1 ≤ currentIndex < length - 1`), so the `none` branch is never taken. -/
def nextYear (self : TimelapseController) : TimelapseController :=
  let availableYears := self.getAvailableYears
  let currentIndex := jsIndexOf availableYears self.currentYear
  if currentIndex < (availableYears.length : Int) - 1 then
    match availableYears.get? (currentIndex + 1).toNat with
    | some year => self.setYear year
    | none => self
  else self

/-- `previousYear()`.  The index `currentIndex - 1` read under the guard lies in the array
(`0 < currentIndex < length`), so the `none` branch is never taken. -/
def previousYear (self : TimelapseController) : TimelapseController :=
  let availableYears := self.getAvailableYears
  let currentIndex := jsIndexOf availableYears self.currentYear
  if currentIndex > 0 then
    match availableYears.get? (currentIndex - 1).toNat with
    | some year => self.setYear year
    | none => self
  else self

/-- `pausePlayback()`: the play button and the effects concern the page. -/
def pausePlayback (self : TimelapseController) : TimelapseController :=
  let self := { self with isPlaying := false }
  if self.playInterval.isSome then { self with playInterval := none } else self

/-- The callback `startPlayback` hands to `setInterval`: `nextYear()`, then
`pausePlayback()` if `currentYear >= 2025`. -/
def intervalCallback (self : TimelapseController) : TimelapseController :=
  let self := self.nextYear
  if self.currentYear ≥ 2025 then self.pausePlayback else self

/-- `startPlayback()`: `isPlaying` is set and the interval is created. -/
def startPlayback (self : TimelapseController) : TimelapseController :=
  { self with isPlaying := true, playInterval := some () }

/-- One period of the interval timer: the callback runs if the interval still exists (a
cleared interval fires no more). -/
def playbackTick (self : TimelapseController) : TimelapseController :=
  if self.playInterval.isSome then self.intervalCallback else self

/-- The `keydown` handler of the year slider for the arrow keys: `direction` is `-1` for
ArrowLeft and `1` for ArrowRight, the step is 5 with Shift and 1 without. -/
def sliderKeydown (self : TimelapseController) (direction : Int) (shiftKey : Bool) :
    TimelapseController :=
  let step : Int := if shiftKey then 5 else 1
  let newYear := max 1990 (min 2025 (self.currentYear + direction * step))
  self.setYear newYear

end TimelapseController

/-! ## The detective controller (`src/js/detective.js`) -/

/-- An entry of `caseFileData.evidence`. -/
structure Evidence where
  id : String
  type : String
  description : String
  significance : String
  dateCollected : String
  deriving DecidableEq

/-- An entry of `caseFileData.timeline`. -/
structure TimelineEvent where
  year : Int
  event : String
  impact : String
  deriving DecidableEq

/-- The object returned by `initializeCaseData`. -/
structure CaseFileData where
  caseNumber : String
  openDate : String
  lastUpdate : String
  status : String
  primaryLocation : String
  suspects : List String
  evidence : List Evidence
  timeline : List TimelineEvent
  deriving DecidableEq

/-- The object returned by `getInvestigationProgress`.  `progressPercentage` is a Number;
the two counts and the total are array lengths. -/
structure InvestigationProgress where
  cluesDiscovered : Nat
  evidenceExamined : Nat
  totalEvidence : Nat
  progressPercentage : JSNumber
  deriving DecidableEq

/-- The fields of a `DetectiveController`. -/
structure DetectiveController where
  caseFileData : CaseFileData
  investigationProgress : Nat
  cluesDiscovered : List String
  evidenceExamined : List String
  deriving DecidableEq

namespace DetectiveController

/-- `initializeCaseData()`. -/
def initializeCaseData : CaseFileData where
  caseNumber := "ENV-001-ARAL"
  openDate := "1990-01-01"
  lastUpdate := "2025-09-04"
  status := "Active Investigation"
  primaryLocation := "Central Asia (Kazakhstan, Uzbekistan)"
  suspects :=
    ["Intensive Cotton Cultivation", "Poor Water Management", "Climate Change",
     "Political Decisions"]
  evidence :=
    [{ id := "SAT-001", type := "Satellite Imagery"
       description := "NASA Terra satellite images spanning 35 years"
       significance := "Primary visual evidence of the sea's disappearance"
       dateCollected := "1990-2025" },
     { id := "HYD-002", type := "Hydrological Data"
       description := "Water level measurements and flow data"
       significance := "Quantifies the scale of water loss"
       dateCollected := "1960-2025" },
     { id := "AGR-003", type := "Agricultural Records"
       description := "Cotton production and irrigation data"
       significance := "Links agricultural expansion to water diversion"
       dateCollected := "1960-2025" },
     { id := "ENV-004", type := "Environmental Impact"
       description := "Health and ecological consequences"
       significance := "Documents the human and environmental cost"
       dateCollected := "1990-2025" }]
  timeline :=
    [{ year := 1960, event := "Major irrigation projects begin", impact := "Low" },
     { year := 1970, event := "Cotton cultivation expansion", impact := "Medium" },
     { year := 1980, event := "First signs of sea level decline", impact := "Medium" },
     { year := 1990, event := "Dramatic shrinkage becomes visible", impact := "High" },
     { year := 2000, event := "Sea splits into two bodies", impact := "Critical" },
     { year := 2010, event := "Eastern basin completely dries", impact := "Critical" },
     { year := 2020, event := "Only 10% of original sea remains", impact := "Catastrophic" },
     { year := 2025, event := "Current investigation status", impact := "Ongoing" }]

/-- The object with the four fields as the constructor sets them (`detective.js`, lines
4 to 7), before it calls `this.init()`.  The constructor does not return normally (see
`construct`); this is the object that the click listener registered by
`initializeEvidenceBoard()` holds, and the initial state of the method-level theorems. -/
def new : DetectiveController where
  caseFileData := initializeCaseData
  investigationProgress := 0
  cluesDiscovered := []
  evidenceExamined := []

/-- The outcome of `init()` on the object `self`.  `setupDetectiveTheme()` works on the page
and registers, in `initializeEvidenceBoard()`, the click listener that calls
`examineEvidence` on `self`; the next statement, `this.initializeCaseFile()`, calls a method
that the class does not define (nor does it define `setupEvidenceInteractions`), which
throws a TypeError. -/
def init (_self : DetectiveController) : Except String DetectiveController :=
  Except.error "TypeError: this.initializeCaseFile is not a function"

/-- The expression `new DetectiveController()`: the fields are set and `init()` is called;
its exception leaves the constructor, so the expression has no value and the assignment
`window.DetectiveController = new DetectiveController()` of the `DOMContentLoaded`
listener does not take place.  In the page, the methods `getInvestigationProgress`, `reset`
and `addClue` of the object can then not be called from outside (the callers in the other
files test `window.DetectiveController` first); `examineEvidence` is called by the click
listener. -/
def construct : Except String DetectiveController :=
  init new

/-- `addClue(clueText)`: the clue list and the notification on the page are not part of the
state. -/
def addClue (self : DetectiveController) (clueText : String) : DetectiveController :=
  if clueText ∈ self.cluesDiscovered then self
  else { self with cluesDiscovered := self.cluesDiscovered ++ [clueText] }

/-- `examineEvidence(type, element)`: the element, the evidence list of the menu and the
examination modal concern the page. -/
def examineEvidence (self : DetectiveController) (type : String) : DetectiveController :=
  if type ∈ self.evidenceExamined then self
  else
    let self := { self with evidenceExamined := self.evidenceExamined ++ [type] }
    self.addClue ("Examined evidence: " ++ type)

/-- `reset()` of the detective controller. -/
def reset (self : DetectiveController) : DetectiveController :=
  { self with cluesDiscovered := [], evidenceExamined := [] }

/-- `getInvestigationProgress()`.  With an empty evidence list the quotient is not a finite
number (it is NaN or Infinity), which `nan` stands for here. -/
def getInvestigationProgress (self : DetectiveController) : InvestigationProgress where
  cluesDiscovered := self.cluesDiscovered.length
  evidenceExamined := self.evidenceExamined.length
  totalEvidence := self.caseFileData.evidence.length
  progressPercentage :=
    if self.caseFileData.evidence.length = 0 then nan
    else
      num ((self.evidenceExamined.length : ℚ) / (self.caseFileData.evidence.length : ℚ) * 100)

/-- The states reachable from the object `new` by calls of the methods `examineEvidence`,
`addClue` and `reset` with arbitrary strings. -/
inductive Reachable : DetectiveController → Prop where
  | init : Reachable new
  | examine (s : DetectiveController) (type : String) :
      Reachable s → Reachable (s.examineEvidence type)
  | clue (s : DetectiveController) (clueText : String) :
      Reachable s → Reachable (s.addClue clueText)
  | reset (s : DetectiveController) : Reachable s → Reachable s.reset

/-- A call of one of the three state-changing methods of the controller. -/
inductive Call where
  | examine (type : String)
  | clue (clueText : String)
  | reset
  deriving DecidableEq

/-- The state after one call. -/
def step (self : DetectiveController) : Call → DetectiveController
  | Call.examine type => self.examineEvidence type
  | Call.clue clueText => self.addClue clueText
  | Call.reset => self.reset

/-- The state after a sequence of calls, the first call first. -/
def run (self : DetectiveController) (calls : List Call) : DetectiveController :=
  calls.foldl step self

/-! ### The words of the specification -/

/-- The evidence types "examined since the last reset" in a sequence of calls: the
arguments of the `examineEvidence` calls after the last `reset` call, in the order of the
calls and with their repetitions.  It is read off the calls alone, not off the state. -/
def examinedSinceReset : List Call → List String
  | [] => []
  | Call.examine type :: calls =>
      if Call.reset ∈ calls then examinedSinceReset calls
      else type :: examinedSinceReset calls
  | Call.clue _ :: calls => examinedSinceReset calls
  | Call.reset :: calls => examinedSinceReset calls

end DetectiveController

/-! ## The map (`src/js/maps.js`) -/

/-- What a call of `updateMapForYear` leaves behind: `currentYear`, the year of the sea
outline it displays (the element `.sea-outline-${displayYear}`) and the area it writes into
the info panel (`none` for `undefined`). -/
structure MapView where
  currentYear : Int
  displayYear : Int
  area : Option String
  deriving DecidableEq

namespace MapController

/-- The `areas` table of `getSeaArea`, its keys given as integers. -/
def areas : List (Int × String) :=
  [(1990, "68,000"), (2000, "17,160"), (2010, "13,900"), (2020, "8,300"), (2025, "7,000")]

/-- `getSeaArea(year)`, that is `areas[year] || areas[2025]`: the area under the key of the
year if there is one (an empty string would be falsy), otherwise the area of 2025. -/
def getSeaArea (year : Int) : Option String :=
  match areas.lookup year with
  | some area => if area = "" then areas.lookup 2025 else some area
  | none => areas.lookup 2025

/-- `updateMapForYear(year)`, with `updateInfoPanelForYear(year)` for the area. -/
def updateMapForYear (year : Int) : MapView :=
  let displayYear : Int :=
    if year ≤ 1995 then 1990
    else if year ≤ 2005 then 2000
    else if year ≤ 2015 then 2010
    else if year ≤ 2022 then 2020
    else 2025
  { currentYear := year, displayYear := displayYear, area := getSeaArea year }

end MapController

/-! ## The audio controller (`src/js/audio.js`) -/

/-- The fields of an `AudioController` that carry volumes: `masterVolume`, the gain of the
master gain node if the Web Audio context exists, and the `volume` of each HTML audio
element of `audioElements`, under its key. -/
structure AudioController where
  audioEnabled : Bool
  masterVolume : ℚ
  masterGain : Option ℚ
  audioElements : List (String × ℚ)
  deriving DecidableEq

namespace AudioController

/-- The controller as the constructor leaves it. -/
def new : AudioController where
  audioEnabled := true
  masterVolume := 0.7
  masterGain := none
  audioElements := []

/-- `setupAudioElements()`: one audio element for each entry of `audioFiles`, with
volume 0. -/
def setupAudioElements (self : AudioController) : AudioController :=
  { self with
    audioElements :=
      [("waterFlowing", 0), ("desertWind", 0), ("investigationTheme", 0), ("typing", 0),
       ("buttonClick", 0), ("chapterTransition", 0), ("success", 0), ("dramatic", 0)] }

/-- `playSound(audioKey, volume)` on an HTML audio element: its volume becomes
`volume * this.masterVolume`.  Without an element of that key the synthesized sound is
played, which sets no volume of the state. -/
def playSound (self : AudioController) (audioKey : String) (volume : ℚ) : AudioController :=
  if ¬ self.audioEnabled then self
  else
    { self with
      audioElements :=
        self.audioElements.map
          (fun entry => if entry.1 = audioKey then (entry.1, volume * self.masterVolume)
            else entry) }

/-- `setMasterVolume(volume)` for a finite Number. -/
def setMasterVolume (self : AudioController) (volume : ℚ) : AudioController :=
  let masterVolume := max 0 (min 1 volume)
  { self with
    masterVolume := masterVolume
    masterGain := self.masterGain.map (fun _ => masterVolume)
    audioElements :=
      self.audioElements.map
        (fun entry => if entry.2 > 0 then (entry.1, min entry.2 masterVolume) else entry) }

/-- `muteTemporary(duration)`, first step: the controller right after the call, and the
`originalVolume` the pending timeout callback holds. -/
def muteTemporary (self : AudioController) : AudioController × ℚ :=
  let originalVolume := self.masterVolume
  (self.setMasterVolume 0, originalVolume)

/-- `muteTemporary(duration)`, second step: the timeout callback
`this.setMasterVolume(originalVolume)`. -/
def muteTemporaryTimeout (self : AudioController) (originalVolume : ℚ) : AudioController :=
  self.setMasterVolume originalVolume

end AudioController

/-! ## Arithmetic on finite numbers -/

namespace JSNumber

@[simp] theorem num_add_num (a b : ℚ) : num a + num b = num (a + b) := rfl
@[simp] theorem num_sub_num (a b : ℚ) : num a - num b = num (a - b) := rfl
@[simp] theorem num_mul_num (a b : ℚ) : num a * num b = num (a * b) := rfl
@[simp] theorem nan_add (x : JSNumber) : nan + x = nan := rfl
@[simp] theorem nan_sub (x : JSNumber) : nan - x = nan := rfl
@[simp] theorem nan_mul (x : JSNumber) : nan * x = nan := rfl
@[simp] theorem add_nan (x : JSNumber) : x + nan = nan := by cases x <;> rfl
@[simp] theorem sub_nan (x : JSNumber) : x - nan = nan := by cases x <;> rfl
@[simp] theorem mul_nan (x : JSNumber) : x * nan = nan := by cases x <;> rfl
@[simp] theorem divLit_num (a d : ℚ) : divLit (num a) d = num (a / d) := rfl
@[simp] theorem divLit_nan (d : ℚ) : divLit nan d = nan := rfl
@[simp] theorem mathMax_num (a b : ℚ) : mathMax (num a) (num b) = num (max a b) := rfl
@[simp] theorem mathMin_num (a b : ℚ) : mathMin (num a) (num b) = num (min a b) := rfl
@[simp] theorem mathMax_nan (x : JSNumber) : mathMax x nan = nan := by cases x <;> rfl
@[simp] theorem mathMin_nan (x : JSNumber) : mathMin x nan = nan := by cases x <;> rfl
@[simp] theorem nan_mathMax (x : JSNumber) : mathMax nan x = nan := rfl
@[simp] theorem nan_mathMin (x : JSNumber) : mathMin nan x = nan := rfl
@[simp] theorem num_le_num (a b : ℚ) : (num a ≤ num b) ↔ a ≤ b := Iff.rfl
@[simp] theorem num_lt_num (a b : ℚ) : (num a < num b) ↔ a < b := Iff.rfl
@[simp] theorem not_nan_le (x : JSNumber) : ¬ (nan ≤ x) := fun h => h
@[simp] theorem not_le_nan (x : JSNumber) : ¬ (x ≤ nan) := by cases x <;> exact fun h => h
@[simp] theorem not_nan_lt (x : JSNumber) : ¬ (nan < x) := fun h => h
@[simp] theorem not_lt_nan (x : JSNumber) : ¬ (x < nan) := by cases x <;> exact fun h => h
@[simp] theorem gt_num (a b : ℚ) : gt (num a) (num b) = decide (a > b) := rfl

end JSNumber

namespace SimulatorController

/-! ## The two table reads in closed form -/

theorem efficiencyFactor_eq (e : ℚ) :
    (getByNumber initializeBaselineData.irrigationEfficiencyFactors e).orElse (num 1.0)
      = JSValue.number (num (efficiencyFactorOf e)) := by
  unfold efficiencyFactorOf
  simp only [getByNumber, initializeBaselineData, ownProperty]
  split_ifs <;> simp [JSValue.orElse] <;> norm_num

theorem policyFactor_eq (p : String) (hp : p ∉ objectPrototypeKeys) :
    (getByName initializeBaselineData.policyImpacts p).orElse (num 1.0)
      = JSValue.number (num (policyFactorOf p)) := by
  unfold policyFactorOf
  simp only [getByName, initializeBaselineData, ownProperty]
  split_ifs <;> simp [JSValue.orElse] <;> norm_num

theorem policyFactor_inherited (p : String) (hp : p ∈ objectPrototypeKeys) :
    (getByName initializeBaselineData.policyImpacts p).orElse (num 1.0) = JSValue.object := by
  have h1 : p ≠ "none" := by rintro rfl; simp [objectPrototypeKeys] at hp
  have h2 : p ≠ "moderate" := by rintro rfl; simp [objectPrototypeKeys] at hp
  have h3 : p ≠ "strict" := by rintro rfl; simp [objectPrototypeKeys] at hp
  simp [getByName, initializeBaselineData, ownProperty, h1, h2, h3, hp, JSValue.orElse]

theorem calculateScenario_congr (self : SimulatorController)
    (hb : self.baselineData = initializeBaselineData) (s : Scenario) :
    self.calculateScenario s = new.calculateScenario s := by
  simp only [calculateScenario, calculateEnvironmentalImpact, calculateSocialImpact, hb, new]

theorem waterConsumption_eq (s : Scenario) (hp : s.waterPolicy ∉ objectPrototypeKeys) :
    (new.calculateScenario s).waterConsumption = num (waterConsumptionOf s) := by
  simp only [calculateScenario, new, efficiencyFactor_eq, policyFactor_eq _ hp,
    JSValue.toNumber, num_mul_num, waterConsumptionOf]

theorem waterConsumption_inherited (s : Scenario) (hp : s.waterPolicy ∈ objectPrototypeKeys) :
    (new.calculateScenario s).waterConsumption = nan := by
  simp only [calculateScenario, new, efficiencyFactor_eq, policyFactor_inherited _ hp,
    JSValue.toNumber, num_mul_num, mul_nan]

/-- A closed form of exact arithmetic for `seaLevelChange`: the source evaluates
`(20.1 + x) - 20.1` with `x = ((100 − waterConsumption) / 100) × (53.4 − 20.1)`, which is `x`
for rationals; in binary64 the two can differ in the last places, so this lemma serves for
signs and comparisons, not as the value the source prints. -/
theorem seaLevelChange_eq (s : Scenario) (hp : s.waterPolicy ∉ objectPrototypeKeys) :
    (new.calculateScenario s).seaLevelChange
      = num ((100 - waterConsumptionOf s) / 100 * (53.4 - 20.1)) := by
  simp only [calculateScenario, new, efficiencyFactor_eq, policyFactor_eq _ hp,
    JSValue.toNumber, num_mul_num, num_sub_num, num_add_num, divLit_num, waterConsumptionOf]
  simp only [initializeBaselineData]
  congr 1
  ring

theorem projectedSeaLevel_eq (s : Scenario) (hp : s.waterPolicy ∉ objectPrototypeKeys) :
    (new.calculateScenario s).projectedSeaLevel
      = num (max 20.1 (min 53.4 (20.1 + (100 - waterConsumptionOf s) / 100 * (53.4 - 20.1)))) := by
  simp only [calculateScenario, new, efficiencyFactor_eq, policyFactor_eq _ hp,
    JSValue.toNumber, num_mul_num, num_sub_num, num_add_num, divLit_num, waterConsumptionOf]
  simp only [initializeBaselineData, num_add_num, mathMax_num, mathMin_num]

theorem waterSaved_eq (s : Scenario) (hp : s.waterPolicy ∉ objectPrototypeKeys) :
    (new.calculateScenario s).waterSaved = num (max 0 (100 - waterConsumptionOf s)) := by
  simp only [calculateScenario, new, efficiencyFactor_eq, policyFactor_eq _ hp,
    JSValue.toNumber, num_mul_num, num_sub_num, waterConsumptionOf, mathMax_num]

theorem policyFactorOf_none : policyFactorOf "none" = 1 := by
  rw [policyFactorOf, if_pos rfl]; norm_num

theorem policyFactorOf_moderate : policyFactorOf "moderate" = 3 / 4 := by
  rw [policyFactorOf, if_neg (by decide), if_pos rfl]; norm_num

theorem policyFactorOf_strict : policyFactorOf "strict" = 1 / 2 := by
  rw [policyFactorOf, if_neg (by decide), if_neg (by decide), if_pos rfl]; norm_num

theorem efficiencyFactorOf_pos (e : ℚ) : 0 < efficiencyFactorOf e := by
  unfold efficiencyFactorOf
  split_ifs <;> norm_num

theorem policyFactorOf_pos (p : String) : 0 < policyFactorOf p := by
  unfold policyFactorOf
  split_ifs <;> norm_num

theorem efficiencyFactorOf_of_not_key (e : ℚ) (he : e ∉ [(30 : ℚ), 45, 60, 75, 90]) :
    efficiencyFactorOf e = 1 := by
  simp only [List.mem_cons, List.mem_singleton, List.not_mem_nil, or_false, not_or] at he
  obtain ⟨h30, h45, h60, h75, h90⟩ := he
  rw [efficiencyFactorOf, if_neg h30, if_neg h45, if_neg h60, if_neg h75, if_neg h90]
  norm_num

theorem not_inherited_of_policy (p : String) (hp : p ∈ ["none", "moderate", "strict"]) :
    p ∉ objectPrototypeKeys := by
  simp only [List.mem_cons, List.mem_singleton, List.not_mem_nil, or_false] at hp
  rcases hp with rfl | rfl | rfl <;> decide

theorem waterConsumptionOf_nonneg (s : Scenario) (hc : 0 ≤ s.cottonArea) :
    0 ≤ waterConsumptionOf s := by
  have hf := efficiencyFactorOf_pos s.irrigationEfficiency
  have hpf := policyFactorOf_pos s.waterPolicy
  unfold waterConsumptionOf
  positivity

theorem environmentalImpact_eq (s : Scenario) (hp : s.waterPolicy ∉ objectPrototypeKeys) :
    (new.calculateScenario s).environmentalImpact
      = new.calculateEnvironmentalImpact
          (num (20.1 + (100 - waterConsumptionOf s) / 100 * (53.4 - 20.1))) := by
  simp only [calculateScenario, new, efficiencyFactor_eq, policyFactor_eq _ hp,
    JSValue.toNumber, num_mul_num, num_sub_num, num_add_num, divLit_num, waterConsumptionOf]
  simp only [initializeBaselineData, num_add_num]

/-! ## Claims about `calculateScenario` -/

/-- Claim C1, amended: for every controller with the baseline data of
`initializeBaselineData` and every scenario (any finite irrigationEfficiency, any finite
cottonArea) whose waterPolicy string is not the name of a property inherited from
`Object.prototype`, the returned projectedSeaLevel lies in the closed interval
[20.1, 53.4]. -/
theorem calculateScenario_projectedSeaLevel_bounds (self : SimulatorController)
    (hb : self.baselineData = initializeBaselineData) (s : Scenario)
    (hp : s.waterPolicy ∉ objectPrototypeKeys) :
    num 20.1 ≤ (self.calculateScenario s).projectedSeaLevel
      ∧ (self.calculateScenario s).projectedSeaLevel ≤ num 53.4 := by
  rw [calculateScenario_congr self hb, projectedSeaLevel_eq s hp]
  refine ⟨?_, ?_⟩
  · exact (num_le_num _ _).2 (le_max_left _ _)
  · exact (num_le_num _ _).2 (max_le (by norm_num) (min_le_left _ _))

/-- Witness for claim C1: the amended bound at the aggressive preset. -/
theorem calculateScenario_projectedSeaLevel_bounds_witness :
    new.baselineData = initializeBaselineData
      ∧ "strict" ∉ objectPrototypeKeys
      ∧ num 20.1 ≤ (new.calculateScenario ⟨85, 30, "strict"⟩).projectedSeaLevel
      ∧ (new.calculateScenario ⟨85, 30, "strict"⟩).projectedSeaLevel ≤ num 53.4 :=
  ⟨rfl, by decide,
    calculateScenario_projectedSeaLevel_bounds new rfl ⟨85, 30, "strict"⟩ (by decide)⟩

/-- Counterexample to claim C1 as stated: for the waterPolicy string "constructor" the
read `policyImpacts[waterPolicy]` finds the inherited constructor function, the product
becomes NaN, and the returned projectedSeaLevel is NaN, which is not in [20.1, 53.4]. -/
theorem calculateScenario_projectedSeaLevel_constructor :
    (new.calculateScenario ⟨45, 80, "constructor"⟩).projectedSeaLevel = nan
      ∧ ¬ (num 20.1 ≤ (new.calculateScenario ⟨45, 80, "constructor"⟩).projectedSeaLevel
            ∧ (new.calculateScenario ⟨45, 80, "constructor"⟩).projectedSeaLevel ≤ num 53.4) := by
  have h : (new.calculateScenario ⟨45, 80, "constructor"⟩).projectedSeaLevel = nan := by
    simp only [calculateScenario, new, efficiencyFactor_eq,
      policyFactor_inherited "constructor" (by decide), JSValue.toNumber, mul_nan, sub_nan,
      nan_mul, divLit_nan, add_nan, mathMin_nan, mathMax_nan]
  refine ⟨h, ?_⟩
  rw [h]
  exact fun hc => not_nan_le _ hc.2

/-- Claim C2: for the baseline scenario {irrigationEfficiency: 45, cottonArea: 80,
waterPolicy: 'none'} the returned waterConsumption is exactly 100 and the returned
seaLevelChange is exactly 0. -/
theorem calculateScenario_baseline (self : SimulatorController)
    (hb : self.baselineData = initializeBaselineData) :
    (self.calculateScenario ⟨45, 80, "none"⟩).waterConsumption = num 100
      ∧ (self.calculateScenario ⟨45, 80, "none"⟩).seaLevelChange = num 0 := by
  rw [calculateScenario_congr self hb, waterConsumption_eq _ (by decide),
    seaLevelChange_eq _ (by decide)]
  constructor <;> congr 1 <;>
    norm_num [waterConsumptionOf, efficiencyFactorOf, policyFactorOf_none]

/-- Witness for claim C2: the controller as constructed. -/
theorem calculateScenario_baseline_witness :
    new.baselineData = initializeBaselineData
      ∧ (new.calculateScenario ⟨45, 80, "none"⟩).waterConsumption = num 100
      ∧ (new.calculateScenario ⟨45, 80, "none"⟩).seaLevelChange = num 0 :=
  ⟨rfl, calculateScenario_baseline new rfl⟩

/-- Claim C3: for every scenario whose irrigationEfficiency is one of 30, 45, 60, 75, 90
(with f = 1.5, 1.0, 0.7, 0.5, 0.3 respectively) and whose waterPolicy is one of 'none',
'moderate', 'strict' (with p = 1.0, 0.75, 0.5 respectively), the returned
waterConsumption equals 100 × f × (cottonArea / 80) × p. -/
theorem calculateScenario_waterConsumption_tabulated (self : SimulatorController)
    (hb : self.baselineData = initializeBaselineData) (e f cottonArea p : ℚ)
    (waterPolicy : String)
    (he : (e, f) ∈ [((30 : ℚ), (1.5 : ℚ)), (45, 1.0), (60, 0.7), (75, 0.5), (90, 0.3)])
    (hpol : (waterPolicy, p) ∈ [("none", (1.0 : ℚ)), ("moderate", 0.75), ("strict", 0.5)]) :
    (self.calculateScenario ⟨e, cottonArea, waterPolicy⟩).waterConsumption
      = num (100 * f * (cottonArea / 80) * p) := by
  have hp : waterPolicy ∉ objectPrototypeKeys := by
    simp only [List.mem_cons, Prod.mk.injEq, List.mem_singleton, List.not_mem_nil,
      or_false] at hpol
    rcases hpol with ⟨rfl, -⟩ | ⟨rfl, -⟩ | ⟨rfl, -⟩ <;> decide
  rw [calculateScenario_congr self hb, waterConsumption_eq _ hp]
  simp only [List.mem_cons, Prod.mk.injEq, List.mem_singleton, List.not_mem_nil,
    or_false] at he hpol
  rcases he with ⟨rfl, rfl⟩ | ⟨rfl, rfl⟩ | ⟨rfl, rfl⟩ | ⟨rfl, rfl⟩ | ⟨rfl, rfl⟩ <;>
    rcases hpol with ⟨rfl, rfl⟩ | ⟨rfl, rfl⟩ | ⟨rfl, rfl⟩ <;>
    norm_num [waterConsumptionOf, efficiencyFactorOf, policyFactorOf_none,
      policyFactorOf_moderate, policyFactorOf_strict]

/-- Witness for claim C3: efficiency 60 (f = 0.7), cotton area 50, policy 'moderate'
(p = 0.75). -/
theorem calculateScenario_waterConsumption_tabulated_witness :
    new.baselineData = initializeBaselineData
      ∧ ((60 : ℚ), (0.7 : ℚ)) ∈ [((30 : ℚ), (1.5 : ℚ)), (45, 1.0), (60, 0.7), (75, 0.5), (90, 0.3)]
      ∧ ("moderate", (0.75 : ℚ)) ∈ [("none", (1.0 : ℚ)), ("moderate", 0.75), ("strict", 0.5)]
      ∧ (new.calculateScenario ⟨60, 50, "moderate"⟩).waterConsumption
          = num (100 * 0.7 * (50 / 80) * 0.75) :=
  ⟨rfl, by simp, by simp,
    calculateScenario_waterConsumption_tabulated new rfl 60 0.7 50 0.75 "moderate"
      (by simp) (by simp)⟩

/-- Claim C4, evaluation at the failing input: with cottonArea 80 and policy 'none' the
returned waterConsumption is 70 at efficiency 60 and 100 at efficiency 65 (the efficiency
of the 'moderate' preset, which is not a key of the table and takes the default factor 1.0),
so raising the efficiency from 60 to 65 raises the waterConsumption. -/
theorem calculateScenario_waterConsumption_60_65 :
    (new.calculateScenario ⟨60, 80, "none"⟩).waterConsumption = num 70
      ∧ (new.calculateScenario ⟨65, 80, "none"⟩).waterConsumption = num 100
      ∧ ¬ ((new.calculateScenario ⟨65, 80, "none"⟩).waterConsumption
            ≤ (new.calculateScenario ⟨60, 80, "none"⟩).waterConsumption) := by
  have h60 : (new.calculateScenario ⟨60, 80, "none"⟩).waterConsumption = num 70 := by
    rw [waterConsumption_eq _ (by decide)]
    congr 1
    norm_num [waterConsumptionOf, efficiencyFactorOf, policyFactorOf_none]
  have h65 : (new.calculateScenario ⟨65, 80, "none"⟩).waterConsumption = num 100 := by
    rw [waterConsumption_eq _ (by decide)]
    congr 1
    norm_num [waterConsumptionOf, efficiencyFactorOf, policyFactorOf_none]
  refine ⟨h60, h65, ?_⟩
  rw [h60, h65, num_le_num]
  norm_num

/-- Claim C5: for every cottonArea in [0, 100] (indeed every cottonArea ≥ 0) and every
waterPolicy (one of the three policies, or any other name that is not inherited from
`Object.prototype`), the waterConsumption returned by `calculateScenario` is non-increasing
along the tabulated efficiencies 30, 45, 60, 75, 90, and strictly decreasing along them
when cottonArea > 0. -/
theorem calculateScenario_waterConsumption_antitone_keys (self : SimulatorController)
    (hb : self.baselineData = initializeBaselineData) (cottonArea : ℚ)
    (hc0 : 0 ≤ cottonArea) (waterPolicy : String)
    (hp : waterPolicy ∉ objectPrototypeKeys) (e1 e2 : ℚ)
    (h1 : e1 ∈ [(30 : ℚ), 45, 60, 75, 90]) (h2 : e2 ∈ [(30 : ℚ), 45, 60, 75, 90])
    (h12 : e1 < e2) :
    (self.calculateScenario ⟨e2, cottonArea, waterPolicy⟩).waterConsumption
        ≤ (self.calculateScenario ⟨e1, cottonArea, waterPolicy⟩).waterConsumption
      ∧ (0 < cottonArea →
          (self.calculateScenario ⟨e2, cottonArea, waterPolicy⟩).waterConsumption
            < (self.calculateScenario ⟨e1, cottonArea, waterPolicy⟩).waterConsumption) := by
  rw [calculateScenario_congr self hb, calculateScenario_congr self hb,
    waterConsumption_eq _ hp, waterConsumption_eq _ hp, num_le_num, num_lt_num]
  have hpf := policyFactorOf_pos waterPolicy
  have hfac : efficiencyFactorOf e2 < efficiencyFactorOf e1 := by
    simp only [List.mem_cons, List.mem_singleton, List.not_mem_nil, or_false] at h1 h2
    rcases h1 with rfl | rfl | rfl | rfl | rfl <;>
      rcases h2 with rfl | rfl | rfl | rfl | rfl <;>
      first
        | (exfalso; revert h12; norm_num; done)
        | (norm_num [efficiencyFactorOf])
  have hk : 0 ≤ cottonArea / 80 * policyFactorOf waterPolicy := by positivity
  simp only [waterConsumptionOf]
  constructor
  · nlinarith
  · intro hpos
    have hk2 : 0 < cottonArea / 80 * policyFactorOf waterPolicy := by positivity
    nlinarith

/-- Witness for claim C5: efficiencies 45 and 75 at cotton area 50 under policy 'moderate'. -/
theorem calculateScenario_waterConsumption_antitone_keys_witness :
    new.baselineData = initializeBaselineData
      ∧ (0 : ℚ) ≤ 50
      ∧ "moderate" ∉ objectPrototypeKeys
      ∧ (45 : ℚ) ∈ [(30 : ℚ), 45, 60, 75, 90]
      ∧ (75 : ℚ) ∈ [(30 : ℚ), 45, 60, 75, 90]
      ∧ (45 : ℚ) < 75
      ∧ (new.calculateScenario ⟨75, 50, "moderate"⟩).waterConsumption
          ≤ (new.calculateScenario ⟨45, 50, "moderate"⟩).waterConsumption
      ∧ ((0 : ℚ) < 50 →
          (new.calculateScenario ⟨75, 50, "moderate"⟩).waterConsumption
            < (new.calculateScenario ⟨45, 50, "moderate"⟩).waterConsumption) :=
  ⟨rfl, by norm_num, by decide, by simp, by simp, by norm_num,
    calculateScenario_waterConsumption_antitone_keys new rfl 50 (by norm_num)
      "moderate" (by decide) 45 75 (by simp) (by simp) (by norm_num)⟩

/-- Claim C6: for every irrigationEfficiency, every waterPolicy (one of the three policies,
or any other name that is not inherited from `Object.prototype`) and all cotton areas
c1 ≤ c2 (in [0, 100] or not), the waterConsumption returned for c1 is less than or equal to
the one returned for c2. -/
theorem calculateScenario_waterConsumption_mono_cottonArea (self : SimulatorController)
    (hb : self.baselineData = initializeBaselineData) (e : ℚ) (waterPolicy : String)
    (hp : waterPolicy ∉ objectPrototypeKeys) (c1 c2 : ℚ) (h12 : c1 ≤ c2) :
    (self.calculateScenario ⟨e, c1, waterPolicy⟩).waterConsumption
      ≤ (self.calculateScenario ⟨e, c2, waterPolicy⟩).waterConsumption := by
  rw [calculateScenario_congr self hb, calculateScenario_congr self hb,
    waterConsumption_eq _ hp, waterConsumption_eq _ hp, num_le_num]
  have hf := efficiencyFactorOf_pos e
  have hpf := policyFactorOf_pos waterPolicy
  simp only [waterConsumptionOf]
  gcongr

/-- Witness for claim C6: cotton areas 30 and 80 at efficiency 85 under policy 'strict'. -/
theorem calculateScenario_waterConsumption_mono_cottonArea_witness :
    new.baselineData = initializeBaselineData
      ∧ "strict" ∉ objectPrototypeKeys
      ∧ (30 : ℚ) ≤ 80
      ∧ (new.calculateScenario ⟨85, 30, "strict"⟩).waterConsumption
          ≤ (new.calculateScenario ⟨85, 80, "strict"⟩).waterConsumption :=
  ⟨rfl, by decide, by norm_num,
    calculateScenario_waterConsumption_mono_cottonArea new rfl 85 "strict" (by decide) 30 80
      (by norm_num)⟩

/-- Claim C7: for the 'aggressive' preset {irrigationEfficiency: 85, cottonArea: 30,
waterPolicy: 'strict'} the returned seaLevelChange is strictly positive and the returned
socialImpact.jobsCreated equals 4000. -/
theorem calculateScenario_aggressive (self : SimulatorController)
    (hb : self.baselineData = initializeBaselineData) :
    num 0 < (self.calculateScenario ⟨85, 30, "strict"⟩).seaLevelChange
      ∧ (self.calculateScenario ⟨85, 30, "strict"⟩).socialImpact.jobsCreated = num 4000 := by
  rw [calculateScenario_congr self hb, seaLevelChange_eq _ (by decide), num_lt_num]
  constructor
  · norm_num [waterConsumptionOf, efficiencyFactorOf, policyFactorOf_strict]
  · simp only [calculateScenario, calculateSocialImpact]
    norm_num

/-- Witness for claim C7: the controller as constructed. -/
theorem calculateScenario_aggressive_witness :
    new.baselineData = initializeBaselineData
      ∧ num 0 < (new.calculateScenario ⟨85, 30, "strict"⟩).seaLevelChange
      ∧ (new.calculateScenario ⟨85, 30, "strict"⟩).socialImpact.jobsCreated = num 4000 :=
  ⟨rfl, calculateScenario_aggressive new rfl⟩

/-- Claim C8: for the scenario {irrigationEfficiency: 30, cottonArea: 100,
waterPolicy: 'none'} the returned waterConsumption (187.5) is greater than or equal to 100
and the returned environmentalImpact.overallScore equals its floor value 0. -/
theorem calculateScenario_worst_case (self : SimulatorController)
    (hb : self.baselineData = initializeBaselineData) :
    num 100 ≤ (self.calculateScenario ⟨30, 100, "none"⟩).waterConsumption
      ∧ (self.calculateScenario ⟨30, 100, "none"⟩).waterConsumption = num 187.5
      ∧ (self.calculateScenario ⟨30, 100, "none"⟩).environmentalImpact.overallScore = num 0 := by
  have hw : waterConsumptionOf ⟨30, 100, "none"⟩ = 187.5 := by
    norm_num [waterConsumptionOf, efficiencyFactorOf, policyFactorOf_none]
  rw [calculateScenario_congr self hb, waterConsumption_eq _ (by decide),
    environmentalImpact_eq _ (by decide), hw, num_le_num]
  refine ⟨by norm_num, rfl, ?_⟩
  simp only [calculateEnvironmentalImpact, new, initializeBaselineData, num_sub_num,
    divLit_num, num_mul_num, num_add_num, mathMin_num, mathMax_num]
  congr 1
  norm_num

/-- Witness for claim C8: the controller as constructed. -/
theorem calculateScenario_worst_case_witness :
    new.baselineData = initializeBaselineData
      ∧ num 100 ≤ (new.calculateScenario ⟨30, 100, "none"⟩).waterConsumption
      ∧ (new.calculateScenario ⟨30, 100, "none"⟩).waterConsumption = num 187.5
      ∧ (new.calculateScenario ⟨30, 100, "none"⟩).environmentalImpact.overallScore = num 0 :=
  ⟨rfl, calculateScenario_worst_case new rfl⟩

/-- Counterexample to claim C9 as stated: for the valid scenario {irrigationEfficiency: 30,
cottonArea: 100, waterPolicy: 'none'} the returned seaLevelChange is below −29 (it is
(20.1 + (−87.5 / 100) × (53.4 − 20.1)) − 20.1, about −29.14) while the returned waterSaved
is 0, so seaLevelChange differs from (waterSaved / 100) × (53.4 − 20.1), also when 20.1 is
added and subtracted as the source does, and is negative. -/
theorem calculateScenario_seaLevelChange_negative :
    (new.calculateScenario ⟨30, 100, "none"⟩).seaLevelChange
        = (num 20.1 + ((num 100 - num 187.5).divLit 100) * num (53.4 - 20.1)) - num 20.1
      ∧ (new.calculateScenario ⟨30, 100, "none"⟩).seaLevelChange < num (-29)
      ∧ (new.calculateScenario ⟨30, 100, "none"⟩).waterSaved = num 0
      ∧ (new.calculateScenario ⟨30, 100, "none"⟩).seaLevelChange
          ≠ ((new.calculateScenario ⟨30, 100, "none"⟩).waterSaved.divLit 100) * num (53.4 - 20.1)
      ∧ (new.calculateScenario ⟨30, 100, "none"⟩).seaLevelChange
          ≠ (num 20.1
              + ((new.calculateScenario ⟨30, 100, "none"⟩).waterSaved.divLit 100)
                  * num (53.4 - 20.1)) - num 20.1
      ∧ (new.calculateScenario ⟨30, 100, "none"⟩).seaLevelChange < num 0 := by
  have hw : waterConsumptionOf ⟨30, 100, "none"⟩ = 187.5 := by
    norm_num [waterConsumptionOf, efficiencyFactorOf, policyFactorOf_none]
  have h1 : (new.calculateScenario ⟨30, 100, "none"⟩).seaLevelChange = num (-29.1375) := by
    rw [seaLevelChange_eq _ (by decide), hw]
    congr 1
    norm_num
  have h2 : (new.calculateScenario ⟨30, 100, "none"⟩).waterSaved = num 0 := by
    rw [waterSaved_eq _ (by decide), hw]
    congr 1
    norm_num
  refine ⟨?_, ?_, h2, ?_, ?_, ?_⟩
  · rw [h1, num_sub_num, divLit_num, num_mul_num, num_add_num, num_sub_num]
    congr 1
    norm_num
  · rw [h1, num_lt_num]
    norm_num
  · rw [h1, h2, divLit_num, num_mul_num]
    intro h
    injection h with h
    norm_num at h
  · rw [h1, h2, divLit_num, num_mul_num, num_add_num, num_sub_num]
    intro h
    injection h with h
    norm_num at h
  · rw [h1, num_lt_num]
    norm_num

/-- Claim C9, amended: for every valid scenario (indeed for every scenario whose waterPolicy
is not a name inherited from `Object.prototype`), the returned seaLevelChange is the value
of the expression the source evaluates,
(20.1 + ((100 − waterConsumption) / 100) × (53.4 − 20.1)) − 20.1, in which the difference
100 − waterConsumption is not floored at 0.  When the returned waterConsumption is at most
100 this is (20.1 + (waterSaved / 100) × (53.4 − 20.1)) − 20.1 for the returned waterSaved
field and is not negative; when the returned waterConsumption exceeds 100 the returned
waterSaved is 0 and seaLevelChange is negative. -/
theorem calculateScenario_seaLevelChange_formula (self : SimulatorController)
    (hb : self.baselineData = initializeBaselineData) (s : Scenario)
    (hp : s.waterPolicy ∉ objectPrototypeKeys) :
    (self.calculateScenario s).seaLevelChange
        = (num 20.1
            + ((num 100 - (self.calculateScenario s).waterConsumption).divLit 100)
                * num (53.4 - 20.1)) - num 20.1
      ∧ ((self.calculateScenario s).waterConsumption ≤ num 100 →
          (self.calculateScenario s).seaLevelChange
              = (num 20.1
                  + ((self.calculateScenario s).waterSaved.divLit 100) * num (53.4 - 20.1))
                - num 20.1
            ∧ num 0 ≤ (self.calculateScenario s).seaLevelChange)
      ∧ (num 100 < (self.calculateScenario s).waterConsumption →
          (self.calculateScenario s).waterSaved = num 0
            ∧ (self.calculateScenario s).seaLevelChange < num 0) := by
  rw [calculateScenario_congr self hb, seaLevelChange_eq s hp, waterConsumption_eq s hp,
    waterSaved_eq s hp]
  simp only [num_sub_num, divLit_num, num_mul_num, num_add_num, num_le_num, num_lt_num]
  refine ⟨?_, ?_, ?_⟩
  · congr 1
    ring
  · intro h
    have h0 : (0 : ℚ) ≤ 100 - waterConsumptionOf s := by linarith
    rw [max_eq_right h0]
    refine ⟨?_, ?_⟩
    · congr 1
      ring
    · have : (0 : ℚ) ≤ 53.4 - 20.1 := by norm_num
      positivity
  · intro h
    have h0 : 100 - waterConsumptionOf s ≤ (0 : ℚ) := by linarith
    rw [max_eq_left h0]
    refine ⟨rfl, ?_⟩
    have h3 : (0 : ℚ) < 53.4 - 20.1 := by norm_num
    have h4 : (100 - waterConsumptionOf s) / 100 < 0 := by linarith
    exact mul_neg_of_neg_of_pos h4 h3

/-- Witness for claim C9: the amended form at the 'moderate' preset. -/
theorem calculateScenario_seaLevelChange_formula_witness :
    new.baselineData = initializeBaselineData
      ∧ "moderate" ∉ objectPrototypeKeys
      ∧ (new.calculateScenario ⟨65, 60, "moderate"⟩).seaLevelChange
          = (num 20.1
              + ((num 100
                    - (new.calculateScenario ⟨65, 60, "moderate"⟩).waterConsumption).divLit 100)
                  * num (53.4 - 20.1)) - num 20.1 :=
  ⟨rfl, by decide,
    (calculateScenario_seaLevelChange_formula new rfl ⟨65, 60, "moderate"⟩ (by decide)).1⟩

/-- Claim C10: for every scenario whose irrigationEfficiency is not one of the five
tabulated keys 30, 45, 60, 75, 90, `calculateScenario` uses the efficiency factor 1.0: the
returned waterConsumption equals 100 × 1.0 × (cottonArea / 80) × p for the factor p of the
waterPolicy (1.0, 0.75, 0.5 for 'none', 'moderate', 'strict'), and for every waterPolicy
string it is the same value as the one returned for efficiency 45. -/
theorem calculateScenario_waterConsumption_untabulated (self : SimulatorController)
    (hb : self.baselineData = initializeBaselineData) (e cottonArea : ℚ)
    (waterPolicy : String) (he : e ∉ [(30 : ℚ), 45, 60, 75, 90]) :
    (∀ p : ℚ, (waterPolicy, p) ∈ [("none", (1.0 : ℚ)), ("moderate", 0.75), ("strict", 0.5)] →
        (self.calculateScenario ⟨e, cottonArea, waterPolicy⟩).waterConsumption
          = num (100 * 1.0 * (cottonArea / 80) * p))
      ∧ (self.calculateScenario ⟨e, cottonArea, waterPolicy⟩).waterConsumption
          = (self.calculateScenario ⟨45, cottonArea, waterPolicy⟩).waterConsumption := by
  have hf : efficiencyFactorOf e = 1 := efficiencyFactorOf_of_not_key e he
  have h45 : efficiencyFactorOf 45 = 1 := by norm_num [efficiencyFactorOf]
  rw [calculateScenario_congr self hb, calculateScenario_congr self hb]
  constructor
  · intro p hpol
    simp only [List.mem_cons, Prod.mk.injEq, List.mem_singleton, List.not_mem_nil,
      or_false] at hpol
    have hp : waterPolicy ∉ objectPrototypeKeys := by
      rcases hpol with ⟨rfl, -⟩ | ⟨rfl, -⟩ | ⟨rfl, -⟩ <;> decide
    rw [waterConsumption_eq _ hp]
    rcases hpol with ⟨rfl, rfl⟩ | ⟨rfl, rfl⟩ | ⟨rfl, rfl⟩ <;> congr 1 <;>
      norm_num [waterConsumptionOf, hf, policyFactorOf_none, policyFactorOf_moderate,
        policyFactorOf_strict]
  · by_cases hp : waterPolicy ∈ objectPrototypeKeys
    · rw [waterConsumption_inherited _ hp, waterConsumption_inherited _ hp]
    · rw [waterConsumption_eq _ hp, waterConsumption_eq _ hp]
      simp only [waterConsumptionOf, hf, h45]

/-- Witness for claim C10: efficiency 85 of the 'aggressive' preset. -/
theorem calculateScenario_waterConsumption_untabulated_witness :
    new.baselineData = initializeBaselineData
      ∧ (85 : ℚ) ∉ [(30 : ℚ), 45, 60, 75, 90]
      ∧ (new.calculateScenario ⟨85, 30, "strict"⟩).waterConsumption
          = num (100 * 1.0 * (30 / 80) * 0.5)
      ∧ (new.calculateScenario ⟨85, 30, "strict"⟩).waterConsumption
          = (new.calculateScenario ⟨45, 30, "strict"⟩).waterConsumption :=
  ⟨rfl, by norm_num,
    (calculateScenario_waterConsumption_untabulated new rfl 85 30 "strict"
      (by norm_num)).1 0.5 (by simp),
    (calculateScenario_waterConsumption_untabulated new rfl 85 30 "strict" (by norm_num)).2⟩

/-! ## The parts of a result and the frame of a call -/

theorem calculateScenario_parts (self : SimulatorController) (s : Scenario) :
    ∃ w P : JSNumber,
      (self.calculateScenario s).waterConsumption = w
        ∧ (self.calculateScenario s).waterSaved = mathMax (num 0) (num 100 - w)
        ∧ (self.calculateScenario s).seaLevelChange
            = P - num self.baselineData.currentSeaLevel
        ∧ (self.calculateScenario s).economicImpact = calculateEconomicImpact s w
        ∧ (self.calculateScenario s).environmentalImpact
            = self.calculateEnvironmentalImpact P
        ∧ (self.calculateScenario s).socialImpact = self.calculateSocialImpact s P :=
  ⟨_, _, rfl, rfl, rfl, rfl, rfl, rfl⟩

theorem calculateScenario_eq_of_baselineData (self₁ self₂ : SimulatorController)
    (hb : self₁.baselineData = self₂.baselineData) (s : Scenario) :
    self₁.calculateScenario s = self₂.calculateScenario s := by
  simp only [calculateScenario, calculateEnvironmentalImpact, calculateSocialImpact, hb]

theorem afterCalls_eq (self : SimulatorController) (earlier : List Scenario) :
    afterCalls self earlier = self := by
  induction earlier with
  | nil => rfl
  | cons scenario rest ih => simpa only [afterCalls, callCalculateScenario] using ih

/-! ## Claims about the efficiency default, determinism and the frame -/

theorem waterConsumption_of_policy (e cottonArea p : ℚ) (waterPolicy : String)
    (hpol : (waterPolicy, p) ∈ [("none", (1.0 : ℚ)), ("moderate", 0.75), ("strict", 0.5)]) :
    (new.calculateScenario ⟨e, cottonArea, waterPolicy⟩).waterConsumption
      = num (100 * efficiencyFactorOf e * (cottonArea / 80) * p) := by
  simp only [List.mem_cons, Prod.mk.injEq, List.mem_singleton, List.not_mem_nil,
    or_false] at hpol
  have hp : waterPolicy ∉ objectPrototypeKeys := by
    rcases hpol with ⟨rfl, -⟩ | ⟨rfl, -⟩ | ⟨rfl, -⟩ <;> decide
  rw [waterConsumption_eq _ hp]
  rcases hpol with ⟨rfl, rfl⟩ | ⟨rfl, rfl⟩ | ⟨rfl, rfl⟩ <;> congr 1

theorem nearestKey_eq (e : ℤ) (h30 : 30 ≤ e) (h90 : e ≤ 90) :
    nearestKey e
      = if e ≤ 37 then 30 else if e ≤ 52 then 45 else if e ≤ 67 then 60
        else if e ≤ 82 then 75 else 90 := by
  interval_cases e <;> rfl

theorem nearestKey_nearest (e : ℤ) (h30 : 30 ≤ e) (h90 : e ≤ 90) :
    nearestKey e ∈ [(30 : ℤ), 45, 60, 75, 90]
      ∧ ∀ k ∈ [(30 : ℤ), 45, 60, 75, 90], k ≠ nearestKey e →
          (e - nearestKey e).natAbs < (e - k).natAbs := by
  interval_cases e <;> decide

/-- Counterexample to claim C11 as stated: at efficiency 85 (the 'aggressive' preset,
cottonArea 30, policy 'strict'), whose nearest key is 90, the returned waterConsumption is
100 × 1.0 × (30 / 80) × 0.5, the value for the factor 1.0, and not the
100 × 0.3 × (30 / 80) × 0.5 that the factor 0.3 of key 90 gives; at efficiency 65
(cottonArea 80, policy 'none'), whose nearest key is 60, it is 100 × 1.0 × (80 / 80) × 1.0,
the value for the factor 1.0, and not the 100 × 0.7 × (80 / 80) × 1.0 that the factor 0.7
of key 60 gives. -/
theorem calculateScenario_waterConsumption_85_65 :
    nearestKey 85 = 90
      ∧ (new.calculateScenario ⟨85, 30, "strict"⟩).waterConsumption
        = num (100 * 1.0 * (30 / 80) * 0.5)
      ∧ (new.calculateScenario ⟨85, 30, "strict"⟩).waterConsumption
        ≠ num (100 * 0.3 * (30 / 80) * 0.5)
      ∧ (new.calculateScenario ⟨85, 30, "strict"⟩).waterConsumption
        ≠ (new.calculateScenario ⟨90, 30, "strict"⟩).waterConsumption
      ∧ nearestKey 65 = 60
      ∧ (new.calculateScenario ⟨65, 80, "none"⟩).waterConsumption
        = num (100 * 1.0 * (80 / 80) * 1.0)
      ∧ (new.calculateScenario ⟨65, 80, "none"⟩).waterConsumption
        ≠ num (100 * 0.7 * (80 / 80) * 1.0)
      ∧ (new.calculateScenario ⟨65, 80, "none"⟩).waterConsumption
        ≠ (new.calculateScenario ⟨60, 80, "none"⟩).waterConsumption := by
  have h85 : (new.calculateScenario ⟨85, 30, "strict"⟩).waterConsumption = num (75 / 4) := by
    rw [waterConsumption_eq _ (by decide)]
    congr 1
    norm_num [waterConsumptionOf, efficiencyFactorOf, policyFactorOf_strict]
  have h90 : (new.calculateScenario ⟨90, 30, "strict"⟩).waterConsumption = num (45 / 8) := by
    rw [waterConsumption_eq _ (by decide)]
    congr 1
    norm_num [waterConsumptionOf, efficiencyFactorOf, policyFactorOf_strict]
  have h65 : (new.calculateScenario ⟨65, 80, "none"⟩).waterConsumption = num 100 := by
    rw [waterConsumption_eq _ (by decide)]
    congr 1
    norm_num [waterConsumptionOf, efficiencyFactorOf, policyFactorOf_none]
  have h60 : (new.calculateScenario ⟨60, 80, "none"⟩).waterConsumption = num 70 := by
    rw [waterConsumption_eq _ (by decide)]
    congr 1
    norm_num [waterConsumptionOf, efficiencyFactorOf, policyFactorOf_none]
  rw [h85, h65, h90, h60]
  refine ⟨by decide, ?_, ?_, ?_, by decide, ?_, ?_, ?_⟩
  · congr 1; norm_num
  · intro h; injection h with h; norm_num at h
  · intro h; injection h with h; norm_num at h
  · congr 1; norm_num
  · intro h; injection h with h; norm_num at h
  · intro h; injection h with h; norm_num at h

/-- Claim C11, amended: for every integer irrigationEfficiency e in [30, 90] that is not a
tabulated key and every policy 'none', 'moderate' or 'strict' (factor p), `calculateScenario`
uses the default factor 1.0: the returned waterConsumption is 100 × 1.0 × (cottonArea / 80) × p.
The nearest tabulated key of e is unique, and it is 45 exactly when 38 ≤ e ≤ 52; in that
case the result is the one the nearest key gives.  For every other such e (31..37 and
53..89, nearest key 30, 60, 75 or 90) and cottonArea > 0 the result differs from the one
the nearest key gives. -/
theorem calculateScenario_waterConsumption_nearestKey (self : SimulatorController)
    (hb : self.baselineData = initializeBaselineData) (e : ℤ) (h30 : 30 ≤ e) (h90 : e ≤ 90)
    (hkey : e ∉ [(30 : ℤ), 45, 60, 75, 90]) (cottonArea p : ℚ) (waterPolicy : String)
    (hpol : (waterPolicy, p) ∈ [("none", (1.0 : ℚ)), ("moderate", 0.75), ("strict", 0.5)]) :
    (self.calculateScenario ⟨(e : ℚ), cottonArea, waterPolicy⟩).waterConsumption
        = num (100 * 1.0 * (cottonArea / 80) * p)
      ∧ (nearestKey e ∈ [(30 : ℤ), 45, 60, 75, 90]
          ∧ ∀ k ∈ [(30 : ℤ), 45, 60, 75, 90], k ≠ nearestKey e →
              (e - nearestKey e).natAbs < (e - k).natAbs)
      ∧ (nearestKey e = 45 ↔ (38 ≤ e ∧ e ≤ 52))
      ∧ (nearestKey e = 45 →
          (self.calculateScenario ⟨(e : ℚ), cottonArea, waterPolicy⟩).waterConsumption
            = (self.calculateScenario
                ⟨((nearestKey e : ℤ) : ℚ), cottonArea, waterPolicy⟩).waterConsumption)
      ∧ (nearestKey e ≠ 45 → 0 < cottonArea →
          (self.calculateScenario ⟨(e : ℚ), cottonArea, waterPolicy⟩).waterConsumption
            ≠ (self.calculateScenario
                ⟨((nearestKey e : ℤ) : ℚ), cottonArea, waterPolicy⟩).waterConsumption) := by
  have he : (e : ℚ) ∉ [(30 : ℚ), 45, 60, 75, 90] := by
    intro h
    apply hkey
    simp only [List.mem_cons, List.mem_singleton, List.not_mem_nil, or_false] at h ⊢
    rcases h with h | h | h | h | h
    · left; exact_mod_cast h
    · right; left; exact_mod_cast h
    · right; right; left; exact_mod_cast h
    · right; right; right; left; exact_mod_cast h
    · right; right; right; right; exact_mod_cast h
  have hf : efficiencyFactorOf (e : ℚ) = 1 := efficiencyFactorOf_of_not_key _ he
  have hn := nearestKey_eq e h30 h90
  have hpos : 0 < p := by
    simp only [List.mem_cons, Prod.mk.injEq, List.mem_singleton, List.not_mem_nil,
      or_false] at hpol
    rcases hpol with ⟨-, rfl⟩ | ⟨-, rfl⟩ | ⟨-, rfl⟩ <;> norm_num
  rw [calculateScenario_congr self hb, calculateScenario_congr self hb,
    waterConsumption_of_policy _ _ p _ hpol, waterConsumption_of_policy _ _ p _ hpol, hf]
  refine ⟨?_, nearestKey_nearest e h30 h90, ?_, ?_, ?_⟩
  · congr 1
    norm_num
  · rw [hn]
    split_ifs <;> constructor <;> intro h <;> omega
  · intro h45
    rw [h45]
    congr 1
    norm_num [efficiencyFactorOf]
  · intro h45 hc
    have ht : 0 < cottonArea / 80 * p := by positivity
    rw [hn] at h45 ⊢
    intro h
    injection h with h
    split_ifs at h h45 with h1 h2 h3 h4
    · norm_num [efficiencyFactorOf] at h
      rcases h with h | h <;> linarith
    · exact h45 rfl
    · norm_num [efficiencyFactorOf] at h
      rcases h with h | h <;> linarith
    · norm_num [efficiencyFactorOf] at h
      rcases h with h | h <;> linarith
    · norm_num [efficiencyFactorOf] at h
      rcases h with h | h <;> linarith

/-- Witness for claim C11: efficiency 85 of the 'aggressive' preset, whose nearest key is
90, and efficiency 50 with the same area and policy, whose nearest key is 45. -/
theorem calculateScenario_waterConsumption_nearestKey_witness :
    new.baselineData = initializeBaselineData
      ∧ (30 : ℤ) ≤ 85 ∧ (85 : ℤ) ≤ 90 ∧ (85 : ℤ) ∉ [(30 : ℤ), 45, 60, 75, 90]
      ∧ ("strict", (0.5 : ℚ)) ∈ [("none", (1.0 : ℚ)), ("moderate", 0.75), ("strict", 0.5)]
      ∧ (new.calculateScenario ⟨((85 : ℤ) : ℚ), 30, "strict"⟩).waterConsumption
          = num (100 * 1.0 * (30 / 80) * 0.5)
      ∧ (new.calculateScenario ⟨((50 : ℤ) : ℚ), 30, "strict"⟩).waterConsumption
          = num (100 * 1.0 * (30 / 80) * 0.5) :=
  ⟨rfl, by decide, by decide, by decide, by simp,
    (calculateScenario_waterConsumption_nearestKey new rfl 85 (by decide) (by decide)
      (by decide) 30 0.5 "strict" (by simp)).1,
    (calculateScenario_waterConsumption_nearestKey new rfl 50 (by decide) (by decide)
      (by decide) 30 0.5 "strict" (by simp)).1⟩

/-- Claim C12: `calculateScenario` is deterministic and depends only on its scenario
argument and on baselineData: for any two controllers with equal baselineData (whatever
their currentScenario, isInitialized and lastResults, and whatever calls of
`calculateScenario` were made on each before) and equal scenario arguments, the two
returned results are equal, field by field. -/
theorem calculateScenario_deterministic (self₁ self₂ : SimulatorController)
    (earlier₁ earlier₂ : List Scenario) (scenario₁ scenario₂ : Scenario)
    (hb : self₁.baselineData = self₂.baselineData) (hs : scenario₁ = scenario₂) :
    (callCalculateScenario (afterCalls self₁ earlier₁) scenario₁).1
      = (callCalculateScenario (afterCalls self₂ earlier₂) scenario₂).1 := by
  rw [afterCalls_eq, afterCalls_eq, hs]
  exact calculateScenario_eq_of_baselineData self₁ self₂ hb scenario₂

/-- Witness for claim C12: the controller as constructed against an initialized controller
holding the 'moderate' preset, with a different history of calls, both asked for the
'aggressive' preset. -/
theorem calculateScenario_deterministic_witness :
    new.baselineData
        = ({ new with currentScenario := ⟨65, 60, "moderate"⟩,
                      isInitialized := true } : SimulatorController).baselineData
      ∧ (⟨85, 30, "strict"⟩ : Scenario) = ⟨85, 30, "strict"⟩
      ∧ (callCalculateScenario (afterCalls new [⟨45, 80, "none"⟩]) ⟨85, 30, "strict"⟩).1
        = (callCalculateScenario
            (afterCalls
              ({ new with currentScenario := ⟨65, 60, "moderate"⟩,
                          isInitialized := true } : SimulatorController)
              [⟨55, 70, "moderate"⟩, ⟨30, 100, "none"⟩]) ⟨85, 30, "strict"⟩).1 :=
  ⟨rfl, rfl,
    calculateScenario_deterministic new
      { new with currentScenario := ⟨65, 60, "moderate"⟩, isInitialized := true }
      [⟨45, 80, "none"⟩] [⟨55, 70, "moderate"⟩, ⟨30, 100, "none"⟩]
      ⟨85, 30, "strict"⟩ ⟨85, 30, "strict"⟩ rfl rfl⟩

/-- Claim C13: for every controller and every scenario, the scenario field of the result of
`calculateScenario` has the same irrigationEfficiency, cottonArea and waterPolicy as the
input, and the call leaves the currentScenario and the baselineData of the controller
unchanged. -/
theorem calculateScenario_echo_and_frame (self : SimulatorController) (scenario : Scenario) :
    (callCalculateScenario self scenario).1.scenario.irrigationEfficiency
        = scenario.irrigationEfficiency
      ∧ (callCalculateScenario self scenario).1.scenario.cottonArea = scenario.cottonArea
      ∧ (callCalculateScenario self scenario).1.scenario.waterPolicy = scenario.waterPolicy
      ∧ (callCalculateScenario self scenario).2.currentScenario = self.currentScenario
      ∧ (callCalculateScenario self scenario).2.baselineData = self.baselineData :=
  ⟨rfl, rfl, rfl, rfl, rfl⟩

/-! ## Claims about the environmental impact -/

theorem environmental_of_change (self : SimulatorController) (s : Scenario) :
    ∃ D : JSNumber,
      (self.calculateScenario s).seaLevelChange = D
        ∧ (self.calculateScenario s).environmentalImpact
            = { biodiversityScore :=
                  mathMax (num 0) (mathMin (num 100) (num 20 + (D.divLit 33.3) * num 80))
                saltStormReduction :=
                  mathMax (num 0) (mathMin (num 100) ((D.divLit 33.3) * num 100))
                climateStability :=
                  mathMax (num 0) (mathMin (num 100) (num 30 + (D.divLit 33.3) * num 70))
                overallScore :=
                  mathMax (num 0)
                    ((mathMin (num 100) (num 20 + (D.divLit 33.3) * num 80)
                      + mathMin (num 100) ((D.divLit 33.3) * num 100)
                      + mathMin (num 100) (num 30 + (D.divLit 33.3) * num 70)).divLit 3) } :=
  ⟨_, rfl, rfl⟩

theorem clamp_num_bounds (y : ℚ) : num 0 ≤ clamp (num y) ∧ clamp (num y) ≤ num 100 := by
  simp only [clamp, mathMin_num, mathMax_num, num_le_num]
  exact ⟨le_max_left _ _, max_le (by norm_num) (min_le_left _ _)⟩

/-- Counterexample to claim C14 as stated: for the valid scenario {irrigationEfficiency: 45,
cottonArea: 88, waterPolicy: 'none'} (waterConsumption 110, seaLevelChange −3.33) the
returned sub-scores are 12, 0 and 23, whose mean is 35/3, while the returned overallScore
is 25/3, the mean of 12, −10 and 23. -/
theorem calculateScenario_environmental_overall_45_88 :
    (new.calculateScenario ⟨45, 88, "none"⟩).environmentalImpact.biodiversityScore = num 12
      ∧ (new.calculateScenario ⟨45, 88, "none"⟩).environmentalImpact.saltStormReduction
          = num 0
      ∧ (new.calculateScenario ⟨45, 88, "none"⟩).environmentalImpact.climateStability
          = num 23
      ∧ (new.calculateScenario ⟨45, 88, "none"⟩).environmentalImpact.overallScore
          = num (25 / 3)
      ∧ (new.calculateScenario ⟨45, 88, "none"⟩).environmentalImpact.overallScore
          ≠ mathMax (num 0)
              (((new.calculateScenario ⟨45, 88, "none"⟩).environmentalImpact.biodiversityScore
                + (new.calculateScenario ⟨45, 88, "none"⟩).environmentalImpact.saltStormReduction
                + (new.calculateScenario ⟨45, 88, "none"⟩).environmentalImpact.climateStability
                ).divLit 3) := by
  have hw : waterConsumptionOf ⟨45, 88, "none"⟩ = 110 := by
    norm_num [waterConsumptionOf, efficiencyFactorOf, policyFactorOf_none]
  have he : (new.calculateScenario ⟨45, 88, "none"⟩).environmentalImpact
      = { biodiversityScore := num 12, saltStormReduction := num 0,
          climateStability := num 23, overallScore := num (25 / 3) } := by
    rw [environmentalImpact_eq _ (by decide), hw]
    simp only [calculateEnvironmentalImpact, new, initializeBaselineData, num_sub_num,
      divLit_num, num_mul_num, num_add_num, mathMin_num, mathMax_num]
    norm_num
  rw [he]
  refine ⟨rfl, rfl, rfl, rfl, ?_⟩
  simp only [num_add_num, divLit_num, mathMax_num]
  intro h
  injection h with h
  norm_num at h

/-- Claim C14, amended: for every scenario (valid or not), with ratio = seaLevelChange / 33.3,
the returned environmentalImpact.overallScore is the mean, floored at 0, of the three
sub-scores as they are before their own floor at 0: min(100, 20 + 80·ratio),
min(100, 100·ratio) and min(100, 30 + 70·ratio).  Whenever the returned seaLevelChange is
not negative, this is the mean of the three returned sub-scores, floored at 0. -/
theorem calculateScenario_environmental_overall (self : SimulatorController) (s : Scenario) :
    (self.calculateScenario s).environmentalImpact.overallScore
        = mathMax (num 0)
            ((mathMin (num 100)
                (num 20 + num 80 * ((self.calculateScenario s).seaLevelChange.divLit 33.3))
              + mathMin (num 100)
                (num 100 * ((self.calculateScenario s).seaLevelChange.divLit 33.3))
              + mathMin (num 100)
                (num 30 + num 70 * ((self.calculateScenario s).seaLevelChange.divLit 33.3))
              ).divLit 3)
      ∧ (num 0 ≤ (self.calculateScenario s).seaLevelChange →
          (self.calculateScenario s).environmentalImpact.overallScore
            = mathMax (num 0)
                (((self.calculateScenario s).environmentalImpact.biodiversityScore
                  + (self.calculateScenario s).environmentalImpact.saltStormReduction
                  + (self.calculateScenario s).environmentalImpact.climateStability
                  ).divLit 3)) := by
  obtain ⟨D, hD, hE⟩ := environmental_of_change self s
  rw [hD, hE]
  cases D with
  | nan => exact ⟨rfl, fun h => absurd h (not_le_nan _)⟩
  | num x =>
    simp only [divLit_num, num_mul_num, num_add_num, mathMin_num, mathMax_num, num_le_num]
    refine ⟨by ring_nf, ?_⟩
    intro hx
    have hr : (0 : ℚ) ≤ x / 33.3 := by positivity
    have h1 : (0 : ℚ) ≤ min 100 (20 + x / 33.3 * 80) := le_min (by norm_num) (by positivity)
    have h2 : (0 : ℚ) ≤ min 100 (x / 33.3 * 100) := le_min (by norm_num) (by positivity)
    have h3 : (0 : ℚ) ≤ min 100 (30 + x / 33.3 * 70) := le_min (by norm_num) (by positivity)
    rw [max_eq_right h1, max_eq_right h2, max_eq_right h3]

/-- Witness for claim C14: at the 'aggressive' preset the returned seaLevelChange is not
negative and the overallScore is the floored mean of the three returned sub-scores. -/
theorem calculateScenario_environmental_overall_witness :
    num 0 ≤ (new.calculateScenario ⟨85, 30, "strict"⟩).seaLevelChange
      ∧ (new.calculateScenario ⟨85, 30, "strict"⟩).environmentalImpact.overallScore
          = mathMax (num 0)
              (((new.calculateScenario ⟨85, 30, "strict"⟩).environmentalImpact.biodiversityScore
                + (new.calculateScenario ⟨85, 30, "strict"⟩).environmentalImpact.saltStormReduction
                + (new.calculateScenario ⟨85, 30, "strict"⟩).environmentalImpact.climateStability
                ).divLit 3) := by
  have h : num 0 ≤ (new.calculateScenario ⟨85, 30, "strict"⟩).seaLevelChange := by
    rw [seaLevelChange_eq _ (by decide), num_le_num]
    norm_num [waterConsumptionOf, efficiencyFactorOf, policyFactorOf_strict]
  exact ⟨h, (calculateScenario_environmental_overall new ⟨85, 30, "strict"⟩).2 h⟩

/-- Claim C15: for every scenario, with ratio = seaLevelChange / 33.3, the returned
environmental sub-scores are biodiversityScore = clamp(20 + 80·ratio),
saltStormReduction = clamp(100·ratio) and climateStability = clamp(30 + 70·ratio), where
clamp restricts to [0, 100]; hence, for every scenario whose waterPolicy resolves to a
number (the three policies, or any other name that is not inherited from
`Object.prototype`), each of the three lies in [0, 100]. -/
theorem calculateScenario_environmental_subscores (self : SimulatorController)
    (hb : self.baselineData = initializeBaselineData) (s : Scenario) :
    ((self.calculateScenario s).environmentalImpact.biodiversityScore
        = clamp (num 20 + num 80 * ((self.calculateScenario s).seaLevelChange.divLit 33.3))
      ∧ (self.calculateScenario s).environmentalImpact.saltStormReduction
        = clamp (num 100 * ((self.calculateScenario s).seaLevelChange.divLit 33.3))
      ∧ (self.calculateScenario s).environmentalImpact.climateStability
        = clamp (num 30 + num 70 * ((self.calculateScenario s).seaLevelChange.divLit 33.3)))
    ∧ (s.waterPolicy ∉ objectPrototypeKeys →
        (num 0 ≤ (self.calculateScenario s).environmentalImpact.biodiversityScore
          ∧ (self.calculateScenario s).environmentalImpact.biodiversityScore ≤ num 100)
        ∧ (num 0 ≤ (self.calculateScenario s).environmentalImpact.saltStormReduction
          ∧ (self.calculateScenario s).environmentalImpact.saltStormReduction ≤ num 100)
        ∧ (num 0 ≤ (self.calculateScenario s).environmentalImpact.climateStability
          ∧ (self.calculateScenario s).environmentalImpact.climateStability ≤ num 100)) := by
  have heq : (self.calculateScenario s).environmentalImpact.biodiversityScore
        = clamp (num 20 + num 80 * ((self.calculateScenario s).seaLevelChange.divLit 33.3))
      ∧ (self.calculateScenario s).environmentalImpact.saltStormReduction
        = clamp (num 100 * ((self.calculateScenario s).seaLevelChange.divLit 33.3))
      ∧ (self.calculateScenario s).environmentalImpact.climateStability
        = clamp (num 30 + num 70 * ((self.calculateScenario s).seaLevelChange.divLit 33.3)) := by
    obtain ⟨D, hD, hE⟩ := environmental_of_change self s
    rw [hD, hE]
    cases D with
    | nan => exact ⟨rfl, rfl, rfl⟩
    | num x =>
      simp only [clamp, divLit_num, num_mul_num, num_add_num, mathMin_num, mathMax_num]
      refine ⟨?_, ?_, ?_⟩ <;> ring_nf
  refine ⟨heq, fun hp => ?_⟩
  obtain ⟨h1, h2, h3⟩ := heq
  rw [h1, h2, h3, calculateScenario_congr self hb, seaLevelChange_eq s hp]
  simp only [divLit_num, num_mul_num, num_add_num]
  exact ⟨clamp_num_bounds _, clamp_num_bounds _, clamp_num_bounds _⟩

/-- Witness for claim C15: the sub-scores of the 'moderate' preset lie in [0, 100]. -/
theorem calculateScenario_environmental_subscores_witness :
    new.baselineData = initializeBaselineData
      ∧ "moderate" ∉ objectPrototypeKeys
      ∧ (num 0 ≤ (new.calculateScenario ⟨65, 60, "moderate"⟩).environmentalImpact.biodiversityScore
          ∧ (new.calculateScenario ⟨65, 60, "moderate"⟩).environmentalImpact.biodiversityScore
              ≤ num 100)
      ∧ (num 0 ≤ (new.calculateScenario ⟨65, 60, "moderate"⟩).environmentalImpact.saltStormReduction
          ∧ (new.calculateScenario ⟨65, 60, "moderate"⟩).environmentalImpact.saltStormReduction
              ≤ num 100)
      ∧ (num 0 ≤ (new.calculateScenario ⟨65, 60, "moderate"⟩).environmentalImpact.climateStability
          ∧ (new.calculateScenario ⟨65, 60, "moderate"⟩).environmentalImpact.climateStability
              ≤ num 100) :=
  ⟨rfl, by decide,
    (calculateScenario_environmental_subscores new rfl ⟨65, 60, "moderate"⟩).2 (by decide)⟩

/-! ## Claims about the social impact -/

theorem social_of_change (self : SimulatorController) (s : Scenario) :
    ∃ D : JSNumber,
      (self.calculateScenario s).seaLevelChange = D
        ∧ (self.calculateScenario s).socialImpact
            = { jobsLost := mathMax (num 0) (num ((80 - s.cottonArea) * 500))
                jobsCreated :=
                  mathMax (num 0)
                    (if s.irrigationEfficiency > 45
                      then num ((s.irrigationEfficiency - 45) * 100) else num 0)
                netJobs :=
                  (if s.irrigationEfficiency > 45
                    then num ((s.irrigationEfficiency - 45) * 100) else num 0)
                    - num ((80 - s.cottonArea) * 500)
                healthImprovement :=
                  mathMax (num 0) (mathMin (num 100) ((D.divLit 33.3) * num 100))
                displacementReduction :=
                  mathMax (num 0) (mathMin (num 100) ((D.divLit 33.3) * num 100))
                overallScore :=
                  mathMax (num 0)
                    ((((if s.irrigationEfficiency > 45
                          then num ((s.irrigationEfficiency - 45) * 100) else num 0)
                        - num ((80 - s.cottonArea) * 500)).divLit 1000) * num 50
                      + (mathMin (num 100) ((D.divLit 33.3) * num 100)).divLit 2
                      + (mathMin (num 100) ((D.divLit 33.3) * num 100)).divLit 2) } :=
  ⟨_, rfl, rfl⟩

theorem newJobs_eq (e : ℚ) :
    (if e > 45 then num ((e - 45) * 100) else num 0) = num (max 0 ((e - 45) * 100)) := by
  split_ifs with h
  · rw [max_eq_right (by nlinarith)]
  · rw [max_eq_left (by nlinarith)]

/-- Counterexample to claim C16 as stated: for the valid scenario {irrigationEfficiency: 45,
cottonArea: 100, waterPolicy: 'none'} the returned netJobs is 10000 while jobsCreated and
jobsLost are both 0. -/
theorem calculateScenario_netJobs_45_100 :
    (new.calculateScenario ⟨45, 100, "none"⟩).socialImpact.netJobs = num 10000
      ∧ (new.calculateScenario ⟨45, 100, "none"⟩).socialImpact.jobsCreated = num 0
      ∧ (new.calculateScenario ⟨45, 100, "none"⟩).socialImpact.jobsLost = num 0
      ∧ (new.calculateScenario ⟨45, 100, "none"⟩).socialImpact.netJobs
          ≠ (new.calculateScenario ⟨45, 100, "none"⟩).socialImpact.jobsCreated
              - (new.calculateScenario ⟨45, 100, "none"⟩).socialImpact.jobsLost := by
  obtain ⟨D, -, hS⟩ := social_of_change new ⟨45, 100, "none"⟩
  rw [hS]
  simp only [newJobs_eq, num_sub_num, mathMax_num]
  refine ⟨?_, ?_, ?_, ?_⟩
  · congr 1; norm_num
  · congr 1; norm_num
  · congr 1; norm_num
  · intro h; injection h with h; norm_num at h

/-- Claim C16, amended: for every scenario (valid or not), the returned socialImpact.netJobs
equals the returned jobsCreated minus (80 − cottonArea) × 500, the job loss before its
floor at 0.  For cottonArea ≤ 80 this is jobsCreated minus the returned jobsLost; for
cottonArea > 80 the returned jobsLost is 0 and netJobs is jobsCreated plus
(cottonArea − 80) × 500. -/
theorem calculateScenario_netJobs (self : SimulatorController) (s : Scenario) :
    (self.calculateScenario s).socialImpact.netJobs
        = (self.calculateScenario s).socialImpact.jobsCreated
            - num ((80 - s.cottonArea) * 500)
      ∧ (s.cottonArea ≤ 80 →
          (self.calculateScenario s).socialImpact.netJobs
            = (self.calculateScenario s).socialImpact.jobsCreated
                - (self.calculateScenario s).socialImpact.jobsLost)
      ∧ (80 < s.cottonArea →
          (self.calculateScenario s).socialImpact.jobsLost = num 0
            ∧ (self.calculateScenario s).socialImpact.netJobs
                = (self.calculateScenario s).socialImpact.jobsCreated
                    + num ((s.cottonArea - 80) * 500)) := by
  obtain ⟨D, -, hS⟩ := social_of_change self s
  rw [hS]
  simp only [newJobs_eq, num_sub_num, num_add_num, mathMax_num]
  have hj : max 0 (max 0 ((s.irrigationEfficiency - 45) * 100))
      = max 0 ((s.irrigationEfficiency - 45) * 100) := max_eq_right (le_max_left _ _)
  rw [hj]
  refine ⟨rfl, ?_, ?_⟩
  · intro hc
    rw [max_eq_right (by nlinarith : (0 : ℚ) ≤ (80 - s.cottonArea) * 500)]
  · intro hc
    rw [max_eq_left (by nlinarith : (80 - s.cottonArea) * 500 ≤ (0 : ℚ))]
    refine ⟨rfl, ?_⟩
    congr 1
    ring

/-- Witness for claim C16: at the 'aggressive' preset (cottonArea 30 ≤ 80) netJobs is
jobsCreated minus jobsLost. -/
theorem calculateScenario_netJobs_witness :
    (30 : ℚ) ≤ 80
      ∧ (new.calculateScenario ⟨85, 30, "strict"⟩).socialImpact.netJobs
          = (new.calculateScenario ⟨85, 30, "strict"⟩).socialImpact.jobsCreated
              - (new.calculateScenario ⟨85, 30, "strict"⟩).socialImpact.jobsLost :=
  ⟨by norm_num,
    (calculateScenario_netJobs new ⟨85, 30, "strict"⟩).2.1 (by norm_num)⟩

/-- Counterexample to claim C17 as stated: for the valid scenario {irrigationEfficiency: 45,
cottonArea: 88, waterPolicy: 'none'} (seaLevelChange −3.33) the returned netJobs is 4000 and
the returned healthImprovement and displacementReduction are 0, so the formula of the claim
gives 200, while the returned overallScore is 190 (it uses −10 for both, the values before
their floor at 0). -/
theorem calculateScenario_social_overall_45_88 :
    (new.calculateScenario ⟨45, 88, "none"⟩).socialImpact.netJobs = num 4000
      ∧ (new.calculateScenario ⟨45, 88, "none"⟩).socialImpact.healthImprovement = num 0
      ∧ (new.calculateScenario ⟨45, 88, "none"⟩).socialImpact.displacementReduction = num 0
      ∧ (new.calculateScenario ⟨45, 88, "none"⟩).socialImpact.overallScore = num 190
      ∧ (new.calculateScenario ⟨45, 88, "none"⟩).socialImpact.overallScore
          ≠ mathMax (num 0)
              (((new.calculateScenario ⟨45, 88, "none"⟩).socialImpact.netJobs.divLit 1000)
                  * num 50
                + (new.calculateScenario ⟨45, 88, "none"⟩).socialImpact.healthImprovement.divLit 2
                + (new.calculateScenario ⟨45, 88, "none"⟩).socialImpact.displacementReduction.divLit
                    2) := by
  have hw : waterConsumptionOf ⟨45, 88, "none"⟩ = 110 := by
    norm_num [waterConsumptionOf, efficiencyFactorOf, policyFactorOf_none]
  obtain ⟨D, hD, hS⟩ := social_of_change new ⟨45, 88, "none"⟩
  rw [seaLevelChange_eq _ (by decide), hw] at hD
  have hS2 : (new.calculateScenario ⟨45, 88, "none"⟩).socialImpact
      = { jobsLost := num 0, jobsCreated := num 0, netJobs := num 4000,
          healthImprovement := num 0, displacementReduction := num 0,
          overallScore := num 190 } := by
    rw [hS, ← hD]
    simp only [newJobs_eq, divLit_num, num_mul_num, num_add_num, num_sub_num, mathMin_num,
      mathMax_num]
    norm_num
  rw [hS2]
  refine ⟨rfl, rfl, rfl, rfl, ?_⟩
  simp only [divLit_num, num_mul_num, num_add_num, mathMax_num]
  intro h
  injection h with h
  norm_num at h

/-- Claim C17, amended: for every scenario (valid or not), with ratio = seaLevelChange / 33.3,
the returned socialImpact.overallScore equals
max(0, (netJobs / 1000) × 50 + h / 2 + h / 2) for the returned netJobs and for
h = min(100, ratio × 100), the health and displacement value before its floor at 0; the
returned healthImprovement and displacementReduction are both clamp(ratio × 100).  Whenever
the returned seaLevelChange is not negative, overallScore equals
max(0, (netJobs / 1000) × 50 + healthImprovement / 2 + displacementReduction / 2) for the
returned fields; and for every scenario whose waterPolicy resolves to a number the returned
healthImprovement and displacementReduction lie in [0, 100]. -/
theorem calculateScenario_social_overall (self : SimulatorController)
    (hb : self.baselineData = initializeBaselineData) (s : Scenario) :
    (self.calculateScenario s).socialImpact.overallScore
        = mathMax (num 0)
            (((self.calculateScenario s).socialImpact.netJobs.divLit 1000) * num 50
              + (mathMin (num 100)
                  (((self.calculateScenario s).seaLevelChange.divLit 33.3) * num 100)).divLit 2
              + (mathMin (num 100)
                  (((self.calculateScenario s).seaLevelChange.divLit 33.3) * num 100)).divLit 2)
      ∧ (self.calculateScenario s).socialImpact.healthImprovement
          = clamp (((self.calculateScenario s).seaLevelChange.divLit 33.3) * num 100)
      ∧ (self.calculateScenario s).socialImpact.displacementReduction
          = clamp (((self.calculateScenario s).seaLevelChange.divLit 33.3) * num 100)
      ∧ (num 0 ≤ (self.calculateScenario s).seaLevelChange →
          (self.calculateScenario s).socialImpact.overallScore
            = mathMax (num 0)
                (((self.calculateScenario s).socialImpact.netJobs.divLit 1000) * num 50
                  + (self.calculateScenario s).socialImpact.healthImprovement.divLit 2
                  + (self.calculateScenario s).socialImpact.displacementReduction.divLit 2))
      ∧ (s.waterPolicy ∉ objectPrototypeKeys →
          (num 0 ≤ (self.calculateScenario s).socialImpact.healthImprovement
            ∧ (self.calculateScenario s).socialImpact.healthImprovement ≤ num 100)
          ∧ (num 0 ≤ (self.calculateScenario s).socialImpact.displacementReduction
            ∧ (self.calculateScenario s).socialImpact.displacementReduction ≤ num 100)) := by
  obtain ⟨D, hD, hS⟩ := social_of_change self s
  have hD2 := hD
  rw [calculateScenario_congr self hb] at hD2
  rw [hD, hS]
  refine ⟨rfl, rfl, rfl, ?_, ?_⟩
  · intro h0
    cases D with
    | nan => exact absurd h0 (not_le_nan _)
    | num x =>
      simp only [num_le_num] at h0
      simp only [divLit_num, num_mul_num, mathMin_num, mathMax_num]
      have h2 : (0 : ℚ) ≤ min 100 (x / 33.3 * 100) := le_min (by norm_num) (by positivity)
      rw [max_eq_right h2]
  · intro hp
    rw [seaLevelChange_eq s hp] at hD2
    rw [← hD2]
    simp only [divLit_num, num_mul_num]
    exact ⟨clamp_num_bounds _, clamp_num_bounds _⟩

/-- Witness for claim C17: at the 'aggressive' preset the returned seaLevelChange is not
negative and overallScore is the floored combination of the returned fields. -/
theorem calculateScenario_social_overall_witness :
    new.baselineData = initializeBaselineData
      ∧ num 0 ≤ (new.calculateScenario ⟨85, 30, "strict"⟩).seaLevelChange
      ∧ (new.calculateScenario ⟨85, 30, "strict"⟩).socialImpact.overallScore
          = mathMax (num 0)
              (((new.calculateScenario ⟨85, 30, "strict"⟩).socialImpact.netJobs.divLit 1000)
                  * num 50
                + (new.calculateScenario ⟨85, 30, "strict"⟩).socialImpact.healthImprovement.divLit 2
                + (new.calculateScenario ⟨85, 30, "strict"⟩).socialImpact.displacementReduction.divLit
                    2) := by
  have h : num 0 ≤ (new.calculateScenario ⟨85, 30, "strict"⟩).seaLevelChange := by
    rw [seaLevelChange_eq _ (by decide), num_le_num]
    norm_num [waterConsumptionOf, efficiencyFactorOf, policyFactorOf_strict]
  exact ⟨rfl, h, (calculateScenario_social_overall new rfl ⟨85, 30, "strict"⟩).2.2.2.1 h⟩

/-! ## Claims about the economic impact -/

theorem economic_of_consumption (self : SimulatorController) (s : Scenario) :
    ∃ w : JSNumber,
      (self.calculateScenario s).waterConsumption = w
        ∧ (self.calculateScenario s).waterSaved = mathMax (num 0) (num 100 - w)
        ∧ (self.calculateScenario s).economicImpact
            = { totalCost :=
                  mathMax (num 0)
                    (num (s.cottonArea * 0.8) + num ((s.irrigationEfficiency - 45) * 2)
                      + (if s.waterPolicy = "strict" then num 50
                          else if s.waterPolicy = "moderate" then num 20 else num 0))
                totalBenefit := mathMax (num 0) ((num 100 - w) * num 1.5)
                netImpact :=
                  (num 100 - w) * num 1.5
                    - (num (s.cottonArea * 0.8) + num ((s.irrigationEfficiency - 45) * 2)
                        + (if s.waterPolicy = "strict" then num 50
                            else if s.waterPolicy = "moderate" then num 20 else num 0))
                description :=
                  if gt ((num 100 - w) * num 1.5
                      - (num (s.cottonArea * 0.8) + num ((s.irrigationEfficiency - 45) * 2)
                          + (if s.waterPolicy = "strict" then num 50
                              else if s.waterPolicy = "moderate" then num 20 else num 0)))
                      (num 0)
                  then "Net Economic Benefit" else "Net Economic Cost" } :=
  ⟨_, rfl, rfl, rfl⟩

theorem policyCost_eq (waterPolicy : String) (pc : ℚ)
    (hpol : (waterPolicy, pc) ∈ [("none", (0 : ℚ)), ("moderate", 20), ("strict", 50)]) :
    (if waterPolicy = "strict" then num 50
      else if waterPolicy = "moderate" then num 20 else num 0) = num pc := by
  simp only [List.mem_cons, Prod.mk.injEq, List.mem_singleton, List.not_mem_nil,
    or_false] at hpol
  rcases hpol with ⟨rfl, rfl⟩ | ⟨rfl, rfl⟩ | ⟨rfl, rfl⟩
  · rw [if_neg (by decide), if_neg (by decide)]
  · rw [if_neg (by decide), if_pos rfl]
  · rw [if_pos rfl]

/-- Counterexample to claim C18 as stated: for the valid scenario {irrigationEfficiency: 30,
cottonArea: 100, waterPolicy: 'none'} the returned netImpact is −181.25, while the returned
totalBenefit is 0 and the returned totalCost is 50, whose difference is −50. -/
theorem calculateScenario_netImpact_30_100 :
    (new.calculateScenario ⟨30, 100, "none"⟩).economicImpact.netImpact = num (-181.25)
      ∧ (new.calculateScenario ⟨30, 100, "none"⟩).economicImpact.totalBenefit = num 0
      ∧ (new.calculateScenario ⟨30, 100, "none"⟩).economicImpact.totalCost = num 50
      ∧ (new.calculateScenario ⟨30, 100, "none"⟩).economicImpact.netImpact
          ≠ (new.calculateScenario ⟨30, 100, "none"⟩).economicImpact.totalBenefit
              - (new.calculateScenario ⟨30, 100, "none"⟩).economicImpact.totalCost := by
  have hw : waterConsumptionOf ⟨30, 100, "none"⟩ = 187.5 := by
    norm_num [waterConsumptionOf, efficiencyFactorOf, policyFactorOf_none]
  obtain ⟨w, hW, -, hE⟩ := economic_of_consumption new ⟨30, 100, "none"⟩
  rw [waterConsumption_eq _ (by decide), hw] at hW
  rw [hE, ← hW, policyCost_eq "none" 0 (by simp)]
  simp only [num_sub_num, num_mul_num, num_add_num, mathMax_num]
  refine ⟨?_, ?_, ?_, ?_⟩
  · congr 1; norm_num
  · congr 1; norm_num
  · congr 1; norm_num
  · intro h; injection h with h; norm_num at h

/-- Claim C18, amended: for every scenario whose waterPolicy is one of the three policies
(policyCost 0, 20, 50 for 'none', 'moderate', 'strict'), the returned
economicImpact.netImpact equals (100 − waterConsumption) × 1.5 minus
cottonArea × 0.8 + (irrigationEfficiency − 45) × 2 + policyCost, benefit and cost both taken
before their floor at 0.  Whenever the returned waterConsumption is at most 100 and that
cost is not negative, this is the returned totalBenefit minus the returned totalCost. -/
theorem calculateScenario_netImpact (self : SimulatorController) (e c pc : ℚ)
    (waterPolicy : String)
    (hpol : (waterPolicy, pc) ∈ [("none", (0 : ℚ)), ("moderate", 20), ("strict", 50)]) :
    (self.calculateScenario ⟨e, c, waterPolicy⟩).economicImpact.netImpact
        = (num 100 - (self.calculateScenario ⟨e, c, waterPolicy⟩).waterConsumption) * num 1.5
            - num (c * 0.8 + (e - 45) * 2 + pc)
      ∧ ((self.calculateScenario ⟨e, c, waterPolicy⟩).waterConsumption ≤ num 100 →
          0 ≤ c * 0.8 + (e - 45) * 2 + pc →
          (self.calculateScenario ⟨e, c, waterPolicy⟩).economicImpact.netImpact
            = (self.calculateScenario ⟨e, c, waterPolicy⟩).economicImpact.totalBenefit
                - (self.calculateScenario ⟨e, c, waterPolicy⟩).economicImpact.totalCost) := by
  obtain ⟨w, hW, -, hE⟩ := economic_of_consumption self ⟨e, c, waterPolicy⟩
  rw [hW, hE]
  simp only [policyCost_eq waterPolicy pc hpol, num_add_num]
  refine ⟨trivial, ?_⟩
  intro hw hcost
  cases w with
  | nan => exact absurd hw (not_nan_le _)
  | num x =>
    simp only [num_le_num] at hw
    simp only [num_sub_num, num_mul_num, mathMax_num]
    rw [max_eq_right (by nlinarith : (0 : ℚ) ≤ (100 - x) * 1.5), max_eq_right hcost]

/-- Witness for claim C18: at the 'aggressive' preset waterConsumption is 18.75 and the cost
is 154, and netImpact is totalBenefit minus totalCost. -/
theorem calculateScenario_netImpact_witness :
    ("strict", (50 : ℚ)) ∈ [("none", (0 : ℚ)), ("moderate", 20), ("strict", 50)]
      ∧ (new.calculateScenario ⟨85, 30, "strict"⟩).waterConsumption ≤ num 100
      ∧ (0 : ℚ) ≤ 30 * 0.8 + (85 - 45) * 2 + 50
      ∧ (new.calculateScenario ⟨85, 30, "strict"⟩).economicImpact.netImpact
          = (new.calculateScenario ⟨85, 30, "strict"⟩).economicImpact.totalBenefit
              - (new.calculateScenario ⟨85, 30, "strict"⟩).economicImpact.totalCost := by
  have hw : (new.calculateScenario ⟨85, 30, "strict"⟩).waterConsumption ≤ num 100 := by
    rw [waterConsumption_eq _ (by decide), num_le_num]
    norm_num [waterConsumptionOf, efficiencyFactorOf, policyFactorOf_strict]
  exact ⟨by simp, hw, by norm_num,
    (calculateScenario_netImpact new 85 30 50 "strict" (by simp)).2 hw (by norm_num)⟩

/-- Claim C19: for every controller and every scenario, the returned
economicImpact.totalBenefit equals 1.5 times the returned waterSaved field of the same
result (both are NaN when the waterConsumption is NaN). -/
theorem calculateScenario_totalBenefit (self : SimulatorController) (s : Scenario) :
    (self.calculateScenario s).economicImpact.totalBenefit
      = num 1.5 * (self.calculateScenario s).waterSaved := by
  obtain ⟨w, -, hS, hE⟩ := economic_of_consumption self s
  rw [hS, hE]
  cases w with
  | nan => rfl
  | num x =>
    simp only [num_sub_num, num_mul_num, mathMax_num]
    congr 1
    rcases le_total 0 (100 - x) with h | h
    · rw [max_eq_right h, max_eq_right (by nlinarith)]
      ring
    · rw [max_eq_left h, max_eq_left (by nlinarith)]
      ring

/-- Counterexample to claim C20 as stated: for the valid scenario {irrigationEfficiency: 30,
cottonArea: 0, waterPolicy: 'none'} the returned totalCost is 0, while
cottonArea × 0.8 + (irrigationEfficiency − 45) × 2 + policyCost is −30. -/
theorem calculateScenario_totalCost_30_0 :
    (new.calculateScenario ⟨30, 0, "none"⟩).economicImpact.totalCost = num 0
      ∧ (new.calculateScenario ⟨30, 0, "none"⟩).economicImpact.totalCost
          ≠ num (0 * 0.8 + (30 - 45) * 2 + 0) := by
  obtain ⟨w, -, -, hE⟩ := economic_of_consumption new ⟨30, 0, "none"⟩
  rw [hE, policyCost_eq "none" 0 (by simp)]
  simp only [num_add_num, mathMax_num]
  refine ⟨?_, ?_⟩
  · congr 1; norm_num
  · intro h; injection h with h; norm_num at h

/-- Claim C20, amended: for every scenario whose waterPolicy is one of the three policies
(policyCost 0, 20, 50 for 'none', 'moderate', 'strict'), the returned
economicImpact.totalCost equals
max(0, cottonArea × 0.8 + (irrigationEfficiency − 45) × 2 + policyCost).  It equals the
sum itself whenever the sum is not negative, in particular whenever
irrigationEfficiency ≥ 45 and cottonArea ≥ 0. -/
theorem calculateScenario_totalCost (self : SimulatorController) (e c pc : ℚ)
    (waterPolicy : String)
    (hpol : (waterPolicy, pc) ∈ [("none", (0 : ℚ)), ("moderate", 20), ("strict", 50)]) :
    (self.calculateScenario ⟨e, c, waterPolicy⟩).economicImpact.totalCost
        = mathMax (num 0) (num (c * 0.8 + (e - 45) * 2 + pc))
      ∧ (0 ≤ c * 0.8 + (e - 45) * 2 + pc →
          (self.calculateScenario ⟨e, c, waterPolicy⟩).economicImpact.totalCost
            = num (c * 0.8 + (e - 45) * 2 + pc))
      ∧ (45 ≤ e → 0 ≤ c →
          (self.calculateScenario ⟨e, c, waterPolicy⟩).economicImpact.totalCost
            = num (c * 0.8 + (e - 45) * 2 + pc)) := by
  have hpc : 0 ≤ pc := by
    simp only [List.mem_cons, Prod.mk.injEq, List.mem_singleton, List.not_mem_nil,
      or_false] at hpol
    rcases hpol with ⟨-, rfl⟩ | ⟨-, rfl⟩ | ⟨-, rfl⟩ <;> norm_num
  obtain ⟨w, -, -, hE⟩ := economic_of_consumption self ⟨e, c, waterPolicy⟩
  rw [hE]
  simp only [policyCost_eq waterPolicy pc hpol, num_add_num, mathMax_num]
  refine ⟨trivial, ?_, ?_⟩
  · intro h
    rw [max_eq_right h]
  · intro he hc
    rw [max_eq_right (by nlinarith)]

/-- Witness for claim C20: at the 'moderate' preset the cost is 48 + 40 + 20 = 108. -/
theorem calculateScenario_totalCost_witness :
    ("moderate", (20 : ℚ)) ∈ [("none", (0 : ℚ)), ("moderate", 20), ("strict", 50)]
      ∧ (45 : ℚ) ≤ 65 ∧ (0 : ℚ) ≤ 60
      ∧ (new.calculateScenario ⟨65, 60, "moderate"⟩).economicImpact.totalCost
          = num (60 * 0.8 + (65 - 45) * 2 + 20) :=
  ⟨by simp, by norm_num, by norm_num,
    (calculateScenario_totalCost new 65 60 20 "moderate" (by simp)).2.2
      (by norm_num) (by norm_num)⟩

/-! ## Claims about the feedback text, the sea-level fields and the last results -/

theorem data_prefix_append_if (f x : String) (c : Prop) [Decidable c] :
    f.data <+: (if c then f ++ x else f).data := by
  split_ifs
  · rw [String.data_append]
    exact List.prefix_append _ _
  · exact List.prefix_refl _

theorem data_prefix_append (f x : String) : f.data <+: (f ++ x).data := by
  rw [String.data_append]
  exact List.prefix_append _ _

/-- The headline piece, the first piece appended to `feedback`, is a prefix of the text. -/
theorem generateFeedbackText_headline (r : ScenarioResult) :
    (if gt r.seaLevelChange (num 10) then
        "" ++ "<strong>Excellent Result!</strong> Your scenario could significantly restore the Aral Sea. "
      else if gt r.seaLevelChange (num 5) then
        "" ++ "<strong>Good Progress!</strong> This scenario shows meaningful improvement. "
      else if gt r.seaLevelChange (num 0) then
        "" ++ "<strong>Minor Improvement.</strong> Small steps in the right direction. "
      else
        "" ++ "<strong>No Improvement.</strong> This scenario maintains current decline. ").data
      <+: (generateFeedbackText r).data := by
  unfold generateFeedbackText
  dsimp only
  refine List.IsPrefix.trans ?_ (data_prefix_append _ _)
  refine List.IsPrefix.trans ?_ (data_prefix_append_if _ _ _)
  refine List.IsPrefix.trans ?_ (data_prefix_append_if _ _ _)
  refine List.IsPrefix.trans ?_ (data_prefix_append_if _ _ _)
  refine List.IsPrefix.trans ?_ (data_prefix_append_if _ _ _)
  refine List.IsPrefix.trans ?_ (data_prefix_append_if _ _ _)
  exact data_prefix_append _ _

theorem starts_iff_of_starts (P H T : List Char) (hH : H <+: T) (hlen : P.length ≤ H.length) :
    P <+: T ↔ P <+: H :=
  ⟨fun hp => List.prefix_of_prefix_length_le hp hH hlen, fun hp => hp.trans hH⟩

/-- Claim C23: the text produced by `generateFeedbackText` for a result with a finite
seaLevelChange starts with exactly one of four headlines, selected by seaLevelChange alone:
'Excellent Result!' iff seaLevelChange > 10, 'Good Progress!' iff 5 < seaLevelChange ≤ 10,
'Minor Improvement.' iff 0 < seaLevelChange ≤ 5, and 'No Improvement.' iff
seaLevelChange ≤ 0; for the baseline scenario the headline is 'No Improvement.'. -/
theorem generateFeedbackText_headline_iff (r : ScenarioResult) (x : ℚ)
    (hx : r.seaLevelChange = num x) :
    ("<strong>Excellent Result!</strong>".data <+: (generateFeedbackText r).data ↔ 10 < x)
      ∧ ("<strong>Good Progress!</strong>".data <+: (generateFeedbackText r).data
          ↔ 5 < x ∧ x ≤ 10)
      ∧ ("<strong>Minor Improvement.</strong>".data <+: (generateFeedbackText r).data
          ↔ 0 < x ∧ x ≤ 5)
      ∧ ("<strong>No Improvement.</strong>".data <+: (generateFeedbackText r).data ↔ x ≤ 0)
      ∧ "<strong>No Improvement.</strong>".data
          <+: (generateFeedbackText (new.calculateScenario ⟨45, 80, "none"⟩)).data := by
  have hbase : "<strong>No Improvement.</strong>".data
      <+: (generateFeedbackText (new.calculateScenario ⟨45, 80, "none"⟩)).data := by
    have hH := generateFeedbackText_headline (new.calculateScenario ⟨45, 80, "none"⟩)
    have h0 : (new.calculateScenario ⟨45, 80, "none"⟩).seaLevelChange = num 0 := by
      rw [seaLevelChange_eq _ (by decide)]
      congr 1
      norm_num [waterConsumptionOf, efficiencyFactorOf, policyFactorOf_none]
    rw [h0] at hH
    simp only [gt_num] at hH
    rw [if_neg (by norm_num), if_neg (by norm_num), if_neg (by norm_num)] at hH
    exact List.IsPrefix.trans (by decide) hH
  have hH := generateFeedbackText_headline r
  rw [hx] at hH
  simp only [gt_num, decide_eq_true_eq] at hH
  by_cases h10 : x > 10
  · rw [if_pos h10] at hH
    rw [starts_iff_of_starts _ _ _ hH (by decide), starts_iff_of_starts _ _ _ hH (by decide),
      starts_iff_of_starts _ _ _ hH (by decide), starts_iff_of_starts _ _ _ hH (by decide)]
    exact ⟨iff_of_true (by decide) h10, iff_of_false (by decide) (by intro h; linarith [h.2]),
      iff_of_false (by decide) (by intro h; linarith [h.2]),
      iff_of_false (by decide) (by intro h; linarith), hbase⟩
  · rw [if_neg h10] at hH
    by_cases h5 : x > 5
    · rw [if_pos h5] at hH
      rw [starts_iff_of_starts _ _ _ hH (by decide), starts_iff_of_starts _ _ _ hH (by decide),
        starts_iff_of_starts _ _ _ hH (by decide), starts_iff_of_starts _ _ _ hH (by decide)]
      exact ⟨iff_of_false (by decide) h10, iff_of_true (by decide) ⟨h5, not_lt.1 h10⟩,
        iff_of_false (by decide) (by intro h; linarith [h.2]),
        iff_of_false (by decide) (by intro h; linarith), hbase⟩
    · rw [if_neg h5] at hH
      by_cases h0 : x > 0
      · rw [if_pos h0] at hH
        rw [starts_iff_of_starts _ _ _ hH (by decide),
          starts_iff_of_starts _ _ _ hH (by decide),
          starts_iff_of_starts _ _ _ hH (by decide),
          starts_iff_of_starts _ _ _ hH (by decide)]
        exact ⟨iff_of_false (by decide) h10, iff_of_false (by decide) (fun h => h5 h.1),
          iff_of_true (by decide) ⟨h0, not_lt.1 h5⟩,
          iff_of_false (by decide) (by intro h; linarith), hbase⟩
      · rw [if_neg h0] at hH
        rw [starts_iff_of_starts _ _ _ hH (by decide),
          starts_iff_of_starts _ _ _ hH (by decide),
          starts_iff_of_starts _ _ _ hH (by decide),
          starts_iff_of_starts _ _ _ hH (by decide)]
        exact ⟨iff_of_false (by decide) h10, iff_of_false (by decide) (fun h => h5 h.1),
          iff_of_false (by decide) (fun h => h0 h.1),
          iff_of_true (by decide) (not_lt.1 h0), hbase⟩

/-- Witness for claim C23: the result of the 'aggressive' preset has seaLevelChange
27.05625 and its text starts with 'Excellent Result!'. -/
theorem generateFeedbackText_headline_iff_witness :
    (new.calculateScenario ⟨85, 30, "strict"⟩).seaLevelChange = num 27.05625
      ∧ ("<strong>Excellent Result!</strong>".data
          <+: (generateFeedbackText (new.calculateScenario ⟨85, 30, "strict"⟩)).data
          ↔ (10 : ℚ) < 27.05625) := by
  have h : (new.calculateScenario ⟨85, 30, "strict"⟩).seaLevelChange = num 27.05625 := by
    rw [seaLevelChange_eq _ (by decide)]
    congr 1
    norm_num [waterConsumptionOf, efficiencyFactorOf, policyFactorOf_strict]
  exact ⟨h, (generateFeedbackText_headline_iff _ 27.05625 h).1⟩

/-- Claim C25: for every valid scenario (cottonArea ≥ 0, waterPolicy one of the three
policies or any other name that is not inherited from `Object.prototype`), the two
sea-level fields of the result are consistent: projectedSeaLevel = 20.1 + max(0,
seaLevelChange); the upper clamp at 53.4 does not alter the value, that is
projectedSeaLevel = max(20.1, 20.1 + seaLevelChange); and seaLevelChange ≤ 33.3. -/
theorem calculateScenario_seaLevel_consistent (self : SimulatorController)
    (hb : self.baselineData = initializeBaselineData) (s : Scenario)
    (hp : s.waterPolicy ∉ objectPrototypeKeys) (hc : 0 ≤ s.cottonArea) :
    (self.calculateScenario s).projectedSeaLevel
        = num 20.1 + mathMax (num 0) (self.calculateScenario s).seaLevelChange
      ∧ (self.calculateScenario s).projectedSeaLevel
        = mathMax (num 20.1) (num 20.1 + (self.calculateScenario s).seaLevelChange)
      ∧ (self.calculateScenario s).seaLevelChange ≤ num 33.3 := by
  have hw := waterConsumptionOf_nonneg s hc
  rw [calculateScenario_congr self hb, projectedSeaLevel_eq s hp, seaLevelChange_eq s hp]
  simp only [mathMax_num, num_add_num, num_le_num]
  have hd : (100 - waterConsumptionOf s) / 100 * (53.4 - 20.1) ≤ (33.3 : ℚ) := by
    have h1 : (100 - waterConsumptionOf s) / 100 ≤ 1 := by
      rw [div_le_one (by norm_num)]
      linarith
    nlinarith
  have hmin : min (53.4 : ℚ) (20.1 + (100 - waterConsumptionOf s) / 100 * (53.4 - 20.1))
      = 20.1 + (100 - waterConsumptionOf s) / 100 * (53.4 - 20.1) :=
    min_eq_right (by linarith)
  rw [hmin]
  refine ⟨?_, rfl, hd⟩
  congr 1
  rw [← max_add_add_left]
  norm_num

/-- Witness for claim C25: the 'moderate' preset. -/
theorem calculateScenario_seaLevel_consistent_witness :
    new.baselineData = initializeBaselineData
      ∧ "moderate" ∉ objectPrototypeKeys
      ∧ (0 : ℚ) ≤ 60
      ∧ (new.calculateScenario ⟨65, 60, "moderate"⟩).projectedSeaLevel
          = num 20.1 + mathMax (num 0) (new.calculateScenario ⟨65, 60, "moderate"⟩).seaLevelChange
      ∧ (new.calculateScenario ⟨65, 60, "moderate"⟩).projectedSeaLevel
          = mathMax (num 20.1)
              (num 20.1 + (new.calculateScenario ⟨65, 60, "moderate"⟩).seaLevelChange)
      ∧ (new.calculateScenario ⟨65, 60, "moderate"⟩).seaLevelChange ≤ num 33.3 :=
  ⟨rfl, by decide, by norm_num,
    calculateScenario_seaLevel_consistent new rfl ⟨65, 60, "moderate"⟩ (by decide)
      (by norm_num)⟩

/-- Claim C28, evaluation on the controller as constructed: `runSimulation`, the initial run
of `initialize` and `loadPreset('aggressive')` each compute a result with
`calculateScenario` for the current scenario, and after each of them `getLastResults`
returns no value (`undefined`), not that result: no statement assigns `lastResults`. -/
theorem getLastResults_after_run :
    (runSimulation new).1 = new.calculateScenario new.currentScenario
      ∧ getLastResults (runSimulation new).2 = none
      ∧ getLastResults (runSimulation new).2 ≠ some (runSimulation new).1
      ∧ getLastResults (initializeController new) = none
      ∧ (loadPreset new "aggressive").map getLastResults = some none
      ∧ (loadPreset new "aggressive").map (fun c => c.currentScenario)
          = some ⟨85, 30, "strict"⟩ := by
  refine ⟨rfl, rfl, ?_, rfl, ?_, ?_⟩
  · intro h
    cases h
  · simp [loadPreset, presets, List.lookup, runSimulation, callCalculateScenario,
      getLastResults, new]
  · simp [loadPreset, presets, List.lookup, runSimulation, callCalculateScenario]

end SimulatorController

namespace TimelapseController

open AralSeaInvestigation

/-! ## The timelapse: stepping through the records -/

theorem jsIndexOf_of_mem (array : List Int) (x : Int) (hx : x ∈ array) :
    jsIndexOf array x = (array.indexOf x : Int) := by
  simp only [jsIndexOf, if_pos hx]

theorem jsIndexOf_of_not_mem (array : List Int) (x : Int) (hx : x ∉ array) :
    jsIndexOf array x = -1 := by
  simp only [jsIndexOf, if_neg hx]

theorem mem_getAvailableYears (self : TimelapseController) (z : Int) :
    z ∈ self.getAvailableYears ↔ z ∈ self.timelapseData.map Prod.fst :=
  (List.perm_insertionSort _ _).mem_iff

theorem getAvailableYears_sorted (self : TimelapseController)
    (hnd : (self.timelapseData.map Prod.fst).Nodup) :
    self.getAvailableYears.Sorted (· < ·) :=
  (List.sorted_insertionSort (· ≤ ·) _).lt_of_le
    ((List.perm_insertionSort _ _).nodup_iff.2 hnd)

theorem nextYear_of_mem (self : TimelapseController)
    (hy : self.currentYear ∈ self.getAvailableYears) :
    (∀ h : self.getAvailableYears.indexOf self.currentYear + 1 < self.getAvailableYears.length,
        self.nextYear
          = self.setYear (self.getAvailableYears.get
              ⟨self.getAvailableYears.indexOf self.currentYear + 1, h⟩))
      ∧ (¬ self.getAvailableYears.indexOf self.currentYear + 1 < self.getAvailableYears.length →
          self.nextYear = self) := by
  constructor
  · intro h
    have hc : (self.getAvailableYears.indexOf self.currentYear : Int)
        < (self.getAvailableYears.length : Int) - 1 := by omega
    have ht : ((self.getAvailableYears.indexOf self.currentYear : Int) + 1).toNat
        = self.getAvailableYears.indexOf self.currentYear + 1 := by omega
    simp only [nextYear, jsIndexOf_of_mem _ _ hy, if_pos hc, ht, List.get?_eq_get h]
  · intro h
    have hc : ¬ (self.getAvailableYears.indexOf self.currentYear : Int)
        < (self.getAvailableYears.length : Int) - 1 := by omega
    simp only [nextYear, jsIndexOf_of_mem _ _ hy, if_neg hc]

theorem previousYear_of_mem (self : TimelapseController)
    (hy : self.currentYear ∈ self.getAvailableYears) :
    (∀ h : 0 < self.getAvailableYears.indexOf self.currentYear,
        self.previousYear
          = self.setYear (self.getAvailableYears.get
              ⟨self.getAvailableYears.indexOf self.currentYear - 1,
                by have := List.indexOf_lt_length.2 hy; omega⟩))
      ∧ (¬ 0 < self.getAvailableYears.indexOf self.currentYear →
          self.previousYear = self) := by
  have hlt := List.indexOf_lt_length.2 hy
  constructor
  · intro h
    have hc : (self.getAvailableYears.indexOf self.currentYear : Int) > 0 := by omega
    have ht : ((self.getAvailableYears.indexOf self.currentYear : Int) - 1).toNat
        = self.getAvailableYears.indexOf self.currentYear - 1 := by omega
    have hb : self.getAvailableYears.indexOf self.currentYear - 1
        < self.getAvailableYears.length := by omega
    simp only [previousYear, jsIndexOf_of_mem _ _ hy, if_pos hc, ht, List.get?_eq_get hb]
  · intro h
    have hc : ¬ (self.getAvailableYears.indexOf self.currentYear : Int) > 0 := by omega
    simp only [previousYear, jsIndexOf_of_mem _ _ hy, if_neg hc]

theorem sorted_get_succ_indexOf (L : List Int) (hs : L.Sorted (· < ·)) (y : Int) (hy : y ∈ L)
    (h : L.indexOf y + 1 < L.length) :
    y < L.get ⟨L.indexOf y + 1, h⟩
      ∧ ∀ z ∈ L, y < z → L.get ⟨L.indexOf y + 1, h⟩ ≤ z := by
  have hm := hs.get_strictMono
  have hi : L.indexOf y < L.length := List.indexOf_lt_length.2 hy
  have hget : L.get ⟨L.indexOf y, hi⟩ = y := List.indexOf_get hi
  constructor
  · calc y = L.get ⟨L.indexOf y, hi⟩ := hget.symm
      _ < L.get ⟨L.indexOf y + 1, h⟩ := hm (Fin.mk_lt_mk.2 (Nat.lt_succ_self _))
  · intro z hz hyz
    obtain ⟨j, rfl⟩ := List.mem_iff_get.1 hz
    have hlt : (⟨L.indexOf y, hi⟩ : Fin L.length) < j := by
      rw [← hm.lt_iff_lt, hget]
      exact hyz
    exact hm.monotone (Fin.mk_le_of_le_val (Nat.succ_le_of_lt hlt))

theorem sorted_get_pred_indexOf (L : List Int) (hs : L.Sorted (· < ·)) (y : Int) (hy : y ∈ L)
    (h0 : 0 < L.indexOf y) (h : L.indexOf y - 1 < L.length) :
    L.get ⟨L.indexOf y - 1, h⟩ < y
      ∧ ∀ z ∈ L, z < y → z ≤ L.get ⟨L.indexOf y - 1, h⟩ := by
  have hm := hs.get_strictMono
  have hi : L.indexOf y < L.length := List.indexOf_lt_length.2 hy
  have hget : L.get ⟨L.indexOf y, hi⟩ = y := List.indexOf_get hi
  constructor
  · calc L.get ⟨L.indexOf y - 1, h⟩ < L.get ⟨L.indexOf y, hi⟩ :=
        hm (Fin.mk_lt_mk.2 (Nat.sub_lt h0 Nat.one_pos))
      _ = y := hget
  · intro z hz hzy
    obtain ⟨j, rfl⟩ := List.mem_iff_get.1 hz
    have hlt : j < (⟨L.indexOf y, hi⟩ : Fin L.length) := by
      rw [← hm.lt_iff_lt, hget]
      exact hzy
    exact hm.monotone (Fin.mk_le_of_le_val (Nat.le_sub_one_of_lt hlt))

theorem sorted_indexOf_last (L : List Int) (hs : L.Sorted (· < ·)) (y : Int) (hy : y ∈ L)
    (hmax : ∀ z ∈ L, z ≤ y) : ¬ L.indexOf y + 1 < L.length := by
  intro h
  have h1 := (sorted_get_succ_indexOf L hs y hy h).1
  have h2 := hmax _ (List.get_mem L _ h)
  exact absurd h1 (not_lt.2 h2)

theorem sorted_indexOf_first (L : List Int) (hs : L.Sorted (· < ·)) (y : Int) (hy : y ∈ L)
    (hmin : ∀ z ∈ L, y ≤ z) : ¬ 0 < L.indexOf y := by
  intro h0
  have hi : L.indexOf y < L.length := List.indexOf_lt_length.2 hy
  have hb : L.indexOf y - 1 < L.length := by omega
  have h1 := (sorted_get_pred_indexOf L hs y hy h0 hb).1
  have h2 := hmin _ (List.get_mem L (L.indexOf y - 1) hb)
  exact absurd h1 (not_lt.2 h2)

theorem sorted_indexOf_succ_lt (L : List Int) (hs : L.Sorted (· < ·)) (y : Int) (hy : y ∈ L)
    (z : Int) (hz : z ∈ L) (hyz : y < z) : L.indexOf y + 1 < L.length := by
  have hm := hs.get_strictMono
  have hi : L.indexOf y < L.length := List.indexOf_lt_length.2 hy
  have hget : L.get ⟨L.indexOf y, hi⟩ = y := List.indexOf_get hi
  obtain ⟨j, rfl⟩ := List.mem_iff_get.1 hz
  have hlt : (⟨L.indexOf y, hi⟩ : Fin L.length) < j := by
    rw [← hm.lt_iff_lt, hget]
    exact hyz
  have hj := j.2
  have hlt2 : L.indexOf y < j.1 := hlt
  omega

theorem sorted_indexOf_pos (L : List Int) (hs : L.Sorted (· < ·)) (y : Int) (hy : y ∈ L)
    (z : Int) (hz : z ∈ L) (hzy : z < y) : 0 < L.indexOf y := by
  have hm := hs.get_strictMono
  have hi : L.indexOf y < L.length := List.indexOf_lt_length.2 hy
  have hget : L.get ⟨L.indexOf y, hi⟩ = y := List.indexOf_get hi
  obtain ⟨j, rfl⟩ := List.mem_iff_get.1 hz
  have hlt : j < (⟨L.indexOf y, hi⟩ : Fin L.length) := by
    rw [← hm.lt_iff_lt, hget]
    exact hzy
  have hlt2 : j.1 < L.indexOf y := hlt
  omega

/-- Claim C21: `nextYear` steps through the timelapse records in ascending year order.  For
every timelapse data (its keys being distinct, as the keys of an object are) and every
currentYear that has a record: if it is not the greatest recorded year, `nextYear` sets
currentYear to the smallest recorded year greater than it; if it is the greatest recorded
year, `nextYear` leaves currentYear unchanged.  `previousYear` does the mirror image: it
sets currentYear to the greatest recorded year smaller than it, and leaves the smallest
recorded year unchanged. -/
theorem nextYear_previousYear_records (self : TimelapseController)
    (hnd : (self.timelapseData.map Prod.fst).Nodup)
    (hrec : self.currentYear ∈ self.timelapseData.map Prod.fst) :
    ((∃ z ∈ self.timelapseData.map Prod.fst, self.currentYear < z) →
        self.nextYear.currentYear ∈ self.timelapseData.map Prod.fst
          ∧ self.currentYear < self.nextYear.currentYear
          ∧ ∀ z ∈ self.timelapseData.map Prod.fst,
              self.currentYear < z → self.nextYear.currentYear ≤ z)
      ∧ ((∀ z ∈ self.timelapseData.map Prod.fst, z ≤ self.currentYear) →
          self.nextYear.currentYear = self.currentYear)
      ∧ ((∃ z ∈ self.timelapseData.map Prod.fst, z < self.currentYear) →
          self.previousYear.currentYear ∈ self.timelapseData.map Prod.fst
            ∧ self.previousYear.currentYear < self.currentYear
            ∧ ∀ z ∈ self.timelapseData.map Prod.fst,
                z < self.currentYear → z ≤ self.previousYear.currentYear)
      ∧ ((∀ z ∈ self.timelapseData.map Prod.fst, self.currentYear ≤ z) →
          self.previousYear.currentYear = self.currentYear) := by
  have hs := getAvailableYears_sorted self hnd
  have hy : self.currentYear ∈ self.getAvailableYears :=
    (mem_getAvailableYears self _).2 hrec
  have hmem : ∀ z, z ∈ self.timelapseData.map Prod.fst → z ∈ self.getAvailableYears :=
    fun z hz => (mem_getAvailableYears self z).2 hz
  refine ⟨?_, ?_, ?_, ?_⟩
  · rintro ⟨z, hz, hyz⟩
    have h := sorted_indexOf_succ_lt _ hs _ hy z (hmem z hz) hyz
    have hspec := sorted_get_succ_indexOf _ hs _ hy h
    rw [(nextYear_of_mem self hy).1 h]
    refine ⟨(mem_getAvailableYears self _).1 (List.get_mem _ _ _), hspec.1, ?_⟩
    intro w hw hyw
    exact hspec.2 w (hmem w hw) hyw
  · intro hmax
    have h := sorted_indexOf_last _ hs _ hy (fun z hz => hmax z ((mem_getAvailableYears self z).1 hz))
    rw [(nextYear_of_mem self hy).2 h]
  · rintro ⟨z, hz, hzy⟩
    have h0 := sorted_indexOf_pos _ hs _ hy z (hmem z hz) hzy
    have hlt := List.indexOf_lt_length.2 hy
    have hb : self.getAvailableYears.indexOf self.currentYear - 1
        < self.getAvailableYears.length := by omega
    have hspec := sorted_get_pred_indexOf _ hs _ hy h0 hb
    rw [(previousYear_of_mem self hy).1 h0]
    refine ⟨(mem_getAvailableYears self _).1 (List.get_mem _ _ _), hspec.1, ?_⟩
    intro w hw hwy
    exact hspec.2 w (hmem w hw) hwy
  · intro hmin
    have h := sorted_indexOf_first _ hs _ hy
      (fun z hz => hmin z ((mem_getAvailableYears self z).1 hz))
    rw [(previousYear_of_mem self hy).2 h]

/-- Witness for claim C21: with the eight records of `initializeTimelapseData` and
currentYear 2000, `nextYear` gives a recorded year greater than 2000 and at most every
recorded year greater than 2000 (it is 2005). -/
theorem nextYear_previousYear_records_witness :
    (((new.initializeTimelapse initializeTimelapseData).setYear 2000).timelapseData.map
        Prod.fst).Nodup
      ∧ ((new.initializeTimelapse initializeTimelapseData).setYear 2000).currentYear
          ∈ ((new.initializeTimelapse initializeTimelapseData).setYear 2000).timelapseData.map
              Prod.fst
      ∧ (((new.initializeTimelapse initializeTimelapseData).setYear 2000).nextYear.currentYear
            ∈ ((new.initializeTimelapse initializeTimelapseData).setYear 2000).timelapseData.map
                Prod.fst
          ∧ ((new.initializeTimelapse initializeTimelapseData).setYear 2000).currentYear
              < ((new.initializeTimelapse initializeTimelapseData).setYear
                  2000).nextYear.currentYear
          ∧ ∀ z ∈ ((new.initializeTimelapse initializeTimelapseData).setYear
                    2000).timelapseData.map Prod.fst,
              ((new.initializeTimelapse initializeTimelapseData).setYear 2000).currentYear < z →
                ((new.initializeTimelapse initializeTimelapseData).setYear
                    2000).nextYear.currentYear ≤ z)
      ∧ ((new.initializeTimelapse initializeTimelapseData).setYear 2000).nextYear.currentYear
          = 2005 :=
  ⟨by decide, by decide,
    (nextYear_previousYear_records
        ((new.initializeTimelapse initializeTimelapseData).setYear 2000)
        (by decide) (by decide)).1 ⟨2005, by decide, by decide⟩,
    by decide⟩

/-- Claim C24: auto-advance stops at the end.  Starting at currentYear 1990 with the eight
records of `initializeTimelapseData`, the playback ticks after `startPlayback` visit 1995,
2000, 2005, 2010, 2015, 2020, 2025 in that order; after the seventh tick isPlaying is false
and playInterval is null, and every later tick leaves the controller as it is, so
currentYear stays 2025. -/
theorem playback_stops_at_end :
    (playbackTick^[1] (new.initializeTimelapse initializeTimelapseData).startPlayback).currentYear
        = 1995
      ∧ (playbackTick^[2]
          (new.initializeTimelapse initializeTimelapseData).startPlayback).currentYear = 2000
      ∧ (playbackTick^[3]
          (new.initializeTimelapse initializeTimelapseData).startPlayback).currentYear = 2005
      ∧ (playbackTick^[4]
          (new.initializeTimelapse initializeTimelapseData).startPlayback).currentYear = 2010
      ∧ (playbackTick^[5]
          (new.initializeTimelapse initializeTimelapseData).startPlayback).currentYear = 2015
      ∧ (playbackTick^[6]
          (new.initializeTimelapse initializeTimelapseData).startPlayback).currentYear = 2020
      ∧ (playbackTick^[7]
          (new.initializeTimelapse initializeTimelapseData).startPlayback).currentYear = 2025
      ∧ (playbackTick^[6]
          (new.initializeTimelapse initializeTimelapseData).startPlayback).isPlaying = true
      ∧ (playbackTick^[7]
          (new.initializeTimelapse initializeTimelapseData).startPlayback).isPlaying = false
      ∧ (playbackTick^[7]
          (new.initializeTimelapse initializeTimelapseData).startPlayback).playInterval = none
      ∧ ∀ n : ℕ,
          playbackTick^[7 + n] (new.initializeTimelapse initializeTimelapseData).startPlayback
            = playbackTick^[7] (new.initializeTimelapse initializeTimelapseData).startPlayback := by
  refine ⟨by decide, by decide, by decide, by decide, by decide, by decide, by decide,
    by decide, by decide, by decide, ?_⟩
  have hnone : (playbackTick^[7]
      (new.initializeTimelapse initializeTimelapseData).startPlayback).playInterval = none := by
    decide
  intro n
  induction n with
  | zero => rfl
  | succ k ih =>
    rw [← Nat.add_assoc, Function.iterate_succ_apply', ih]
    simp only [playbackTick, hnone, Option.isSome_none, Bool.false_eq_true, if_false]

/-- Claim C26, evaluation at the failing input: with the eight records of
`initializeTimelapseData`, three ArrowRight presses on the year slider lead from 1990 to
currentYear 1993, a year without a record; `nextYear` then sets currentYear to 1990, a year
before 1993. -/
theorem nextYear_backwards_1993 :
    ((((new.initializeTimelapse initializeTimelapseData).sliderKeydown 1 false).sliderKeydown
        1 false).sliderKeydown 1 false).currentYear = 1993
      ∧ ((((new.initializeTimelapse initializeTimelapseData).sliderKeydown 1 false).sliderKeydown
          1 false).sliderKeydown 1 false).nextYear.currentYear = 1990
      ∧ ((new.initializeTimelapse initializeTimelapseData).setYear 1993).nextYear.currentYear
          = 1990
      ∧ ¬ (((new.initializeTimelapse initializeTimelapseData).setYear 1993).currentYear
            ≤ ((new.initializeTimelapse initializeTimelapseData).setYear
                1993).nextYear.currentYear) := by
  refine ⟨by decide, by decide, by decide, by decide⟩

end TimelapseController

namespace DetectiveController

/-! ## The detective controller: examined evidence and progress -/

theorem examineEvidence_evidenceExamined (s : DetectiveController) (t : String) :
    (s.examineEvidence t).evidenceExamined
      = if t ∈ s.evidenceExamined then s.evidenceExamined else s.evidenceExamined ++ [t] := by
  unfold examineEvidence addClue
  dsimp only
  split_ifs <;> rfl

theorem examineEvidence_of_mem (s : DetectiveController) (t : String)
    (h : t ∈ s.evidenceExamined) : s.examineEvidence t = s := by
  simp only [examineEvidence, if_pos h]

theorem mem_examineEvidence (s : DetectiveController) (t : String) :
    t ∈ (s.examineEvidence t).evidenceExamined := by
  rw [examineEvidence_evidenceExamined]
  split_ifs with h
  · exact h
  · simp

theorem examined_after_calls (calls : List String) :
    (calls.foldl examineEvidence new).evidenceExamined = (calls.reverse.dedup).reverse := by
  induction calls using List.reverseRecOn with
  | nil => rfl
  | append_singleton calls x ih =>
    rw [List.foldl_append, List.foldl_cons, List.foldl_nil, examineEvidence_evidenceExamined, ih,
      List.reverse_append, List.reverse_singleton, List.singleton_append]
    by_cases hx : x ∈ calls.reverse
    · rw [List.dedup_cons_of_mem hx, if_pos (by simpa using hx)]
    · rw [List.dedup_cons_of_not_mem hx, if_neg (by simpa using hx), List.reverse_cons]

theorem addClue_evidenceExamined (s : DetectiveController) (c : String) :
    (s.addClue c).evidenceExamined = s.evidenceExamined := by
  unfold addClue
  split_ifs <;> rfl

theorem addClue_caseFileData (s : DetectiveController) (c : String) :
    (s.addClue c).caseFileData = s.caseFileData := by
  unfold addClue
  split_ifs <;> rfl

theorem examineEvidence_caseFileData (s : DetectiveController) (t : String) :
    (s.examineEvidence t).caseFileData = s.caseFileData := by
  unfold examineEvidence
  dsimp only
  split_ifs
  · rfl
  · rw [addClue_caseFileData]

theorem reachable_invariant (s : DetectiveController) (h : Reachable s) :
    s.caseFileData = initializeCaseData ∧ s.evidenceExamined.Nodup := by
  induction h with
  | init => exact ⟨rfl, List.nodup_nil⟩
  | examine s t _ ih =>
    refine ⟨by rw [examineEvidence_caseFileData]; exact ih.1, ?_⟩
    rw [examineEvidence_evidenceExamined]
    split_ifs with ht
    · exact ih.2
    · refine List.Nodup.append ih.2 (List.nodup_singleton t) ?_
      intro a ha hat
      rw [List.mem_singleton] at hat
      exact ht (hat ▸ ha)
  | clue s c _ ih =>
    exact ⟨by rw [addClue_caseFileData]; exact ih.1, by rw [addClue_evidenceExamined]; exact ih.2⟩
  | reset s _ ih => exact ⟨ih.1, List.nodup_nil⟩

theorem mem_examined_after_calls (calls : List String) (t : String) :
    t ∈ (calls.foldl examineEvidence new).evidenceExamined ↔ t ∈ calls := by
  rw [examined_after_calls]
  simp

theorem indexOf_snoc_order (E calls : List String) (x : String)
    (hmem : ∀ t, t ∈ E ↔ t ∈ calls)
    (ih : ∀ a ∈ E, ∀ b ∈ E, (E.indexOf a < E.indexOf b ↔ calls.indexOf a < calls.indexOf b))
    (hx : x ∉ E) :
    ∀ a ∈ E ++ [x], ∀ b ∈ E ++ [x],
      ((E ++ [x]).indexOf a < (E ++ [x]).indexOf b
        ↔ (calls ++ [x]).indexOf a < (calls ++ [x]).indexOf b) := by
  have hxc : x ∉ calls := fun h => hx ((hmem x).2 h)
  have hEx : (E ++ [x]).indexOf x = E.length := by
    rw [List.indexOf_append_of_not_mem hx]; simp
  have hCx : (calls ++ [x]).indexOf x = calls.length := by
    rw [List.indexOf_append_of_not_mem hxc]; simp
  intro a ha b hb
  rw [List.mem_append, List.mem_singleton] at ha hb
  rcases ha with ha | rfl <;> rcases hb with hb | rfl
  · rw [List.indexOf_append_of_mem ha, List.indexOf_append_of_mem hb,
      List.indexOf_append_of_mem ((hmem a).1 ha), List.indexOf_append_of_mem ((hmem b).1 hb)]
    exact ih a ha b hb
  · rw [List.indexOf_append_of_mem ha, hEx, List.indexOf_append_of_mem ((hmem a).1 ha), hCx]
    exact iff_of_true (List.indexOf_lt_length.2 ha) (List.indexOf_lt_length.2 ((hmem a).1 ha))
  · rw [List.indexOf_append_of_mem hb, hEx, List.indexOf_append_of_mem ((hmem b).1 hb), hCx]
    exact iff_of_false (not_lt.2 (List.indexOf_lt_length.2 hb).le)
      (not_lt.2 (List.indexOf_lt_length.2 ((hmem b).1 hb)).le)
  · simp

theorem examined_order (calls : List String) :
    ∀ a ∈ (calls.foldl examineEvidence new).evidenceExamined,
      ∀ b ∈ (calls.foldl examineEvidence new).evidenceExamined,
        ((calls.foldl examineEvidence new).evidenceExamined.indexOf a
            < (calls.foldl examineEvidence new).evidenceExamined.indexOf b
          ↔ calls.indexOf a < calls.indexOf b) := by
  induction calls using List.reverseRecOn with
  | nil =>
    intro a ha
    exact absurd ha (List.not_mem_nil a)
  | append_singleton calls x ih =>
    have hstep : ((calls ++ [x]).foldl examineEvidence new).evidenceExamined
        = if x ∈ (calls.foldl examineEvidence new).evidenceExamined
            then (calls.foldl examineEvidence new).evidenceExamined
            else (calls.foldl examineEvidence new).evidenceExamined ++ [x] := by
      rw [List.foldl_append, List.foldl_cons, List.foldl_nil, examineEvidence_evidenceExamined]
    rw [hstep]
    split_ifs with hx
    · intro a ha b hb
      rw [List.indexOf_append_of_mem ((mem_examined_after_calls calls a).1 ha),
        List.indexOf_append_of_mem ((mem_examined_after_calls calls b).1 hb)]
      exact ih a ha b hb
    · exact indexOf_snoc_order _ calls x (mem_examined_after_calls calls) ih hx

/-- Claim C22: the detective controller tracks each examined evidence type exactly once.
For every sequence of `examineEvidence` calls on the constructed controller,
evidenceExamined contains no duplicates, holds exactly the types of the calls, and lists
them in order of first examination: one type stands before another in evidenceExamined
exactly when its first call comes before the first call of the other, so that
evidenceExamined is the sequence of calls with every repeated occurrence removed (`dedup`
keeps the last occurrence of each element, hence the first one on the reversed list).  In
every state, examining an already examined type changes nothing
(neither evidenceExamined nor cluesDiscovered), and examining a type twice in a row is the
same as examining it once. -/
theorem examineEvidence_tracks_once (calls : List String) :
    (calls.foldl examineEvidence new).evidenceExamined.Nodup
      ∧ (∀ t, t ∈ (calls.foldl examineEvidence new).evidenceExamined ↔ t ∈ calls)
      ∧ (∀ a ∈ (calls.foldl examineEvidence new).evidenceExamined,
          ∀ b ∈ (calls.foldl examineEvidence new).evidenceExamined,
            ((calls.foldl examineEvidence new).evidenceExamined.indexOf a
                < (calls.foldl examineEvidence new).evidenceExamined.indexOf b
              ↔ calls.indexOf a < calls.indexOf b))
      ∧ (calls.foldl examineEvidence new).evidenceExamined = (calls.reverse.dedup).reverse
      ∧ (∀ (s : DetectiveController) (t : String),
          t ∈ s.evidenceExamined → s.examineEvidence t = s)
      ∧ (∀ (s : DetectiveController) (t : String),
          (s.examineEvidence t).examineEvidence t = s.examineEvidence t) := by
  refine ⟨?_, mem_examined_after_calls calls, examined_order calls,
    examined_after_calls calls, examineEvidence_of_mem, ?_⟩
  · rw [examined_after_calls]
    exact List.nodup_reverse.2 (List.nodup_dedup _)
  · intro s t
    exact examineEvidence_of_mem _ t (mem_examineEvidence s t)

/-- Witness for claim C22: after the calls 'satellite', 'hydrological', 'satellite' the
type 'satellite' is examined, and examining it once more changes nothing. -/
theorem examineEvidence_tracks_once_witness :
    "satellite"
        ∈ (["satellite", "hydrological", "satellite"].foldl examineEvidence new).evidenceExamined
      ∧ (["satellite", "hydrological", "satellite"].foldl examineEvidence
            new).evidenceExamined = ["satellite", "hydrological"]
      ∧ (["satellite", "hydrological", "satellite"].foldl examineEvidence new).examineEvidence
            "satellite"
          = ["satellite", "hydrological", "satellite"].foldl examineEvidence new :=
  ⟨by decide, by decide,
    (examineEvidence_tracks_once ["satellite", "hydrological", "satellite"]).2.2.2.2.1
      (["satellite", "hydrological", "satellite"].foldl examineEvidence new) "satellite"
      (by decide)⟩

theorem reachable_foldl_examineEvidence (calls : List String) :
    ∀ s : DetectiveController, Reachable s → Reachable (calls.foldl examineEvidence s) := by
  induction calls with
  | nil => exact fun s hs => hs
  | cons t rest ih => exact fun s hs => ih _ (Reachable.examine s t hs)

/-- Counterexample to claim C30 as stated: five `examineEvidence` calls with five different
type strings lead from the object `new` to a reachable state in which
`getInvestigationProgress` returns evidenceExamined 5 > totalEvidence 4 and
progressPercentage 125. -/
theorem getInvestigationProgress_five_types :
    Reachable
        (["satellite", "hydrological", "agricultural", "environmental", "timeline"].foldl
          examineEvidence new)
      ∧ (["satellite", "hydrological", "agricultural", "environmental", "timeline"].foldl
          examineEvidence new).getInvestigationProgress.evidenceExamined = 5
      ∧ (["satellite", "hydrological", "agricultural", "environmental", "timeline"].foldl
          examineEvidence new).getInvestigationProgress.totalEvidence = 4
      ∧ ¬ ((["satellite", "hydrological", "agricultural", "environmental", "timeline"].foldl
            examineEvidence new).getInvestigationProgress.evidenceExamined
          ≤ (["satellite", "hydrological", "agricultural", "environmental", "timeline"].foldl
            examineEvidence new).getInvestigationProgress.totalEvidence)
      ∧ (["satellite", "hydrological", "agricultural", "environmental", "timeline"].foldl
          examineEvidence new).getInvestigationProgress.progressPercentage = num 125
      ∧ ¬ ((["satellite", "hydrological", "agricultural", "environmental", "timeline"].foldl
            examineEvidence new).getInvestigationProgress.progressPercentage ≤ num 100) := by
  have hp : (["satellite", "hydrological", "agricultural", "environmental", "timeline"].foldl
      examineEvidence new).getInvestigationProgress.progressPercentage = num 125 := by
    have h5 : (["satellite", "hydrological", "agricultural", "environmental",
        "timeline"].foldl examineEvidence new).evidenceExamined.length = 5 := by decide
    have h4 : (["satellite", "hydrological", "agricultural", "environmental",
        "timeline"].foldl examineEvidence new).caseFileData.evidence.length = 4 := by decide
    simp only [getInvestigationProgress, h5, h4]
    norm_num
  refine ⟨?_, by decide, by decide, by decide, hp, ?_⟩
  · exact reachable_foldl_examineEvidence _ new Reachable.init
  · rw [hp, num_le_num]
    norm_num

theorem reachable_run (calls : List Call) :
    ∀ s : DetectiveController, Reachable s → Reachable (run s calls) := by
  induction calls with
  | nil => exact fun s hs => hs
  | cons c rest ih =>
    intro s hs
    cases c with
    | examine t => exact ih _ (Reachable.examine s t hs)
    | clue c => exact ih _ (Reachable.clue s c hs)
    | reset => exact ih _ (Reachable.reset s hs)

theorem run_snoc (s : DetectiveController) (calls : List Call) (c : Call) :
    run s (calls ++ [c]) = step (run s calls) c := by
  simp only [run, List.foldl_append, List.foldl_cons, List.foldl_nil]

theorem reachable_exists_run (s : DetectiveController) (h : Reachable s) :
    ∃ calls : List Call, s = run new calls := by
  induction h with
  | init => exact ⟨[], rfl⟩
  | examine s t _ ih =>
    obtain ⟨calls, rfl⟩ := ih
    exact ⟨calls ++ [Call.examine t], by rw [run_snoc]; rfl⟩
  | clue s c _ ih =>
    obtain ⟨calls, rfl⟩ := ih
    exact ⟨calls ++ [Call.clue c], by rw [run_snoc]; rfl⟩
  | reset s _ ih =>
    obtain ⟨calls, rfl⟩ := ih
    exact ⟨calls ++ [Call.reset], by rw [run_snoc]; rfl⟩

theorem examinedSinceReset_examine_cons (t : String) (calls : List Call) :
    examinedSinceReset (Call.examine t :: calls)
      = if Call.reset ∈ calls then examinedSinceReset calls
        else t :: examinedSinceReset calls := rfl

theorem examinedSinceReset_clue_cons (c : String) (calls : List Call) :
    examinedSinceReset (Call.clue c :: calls) = examinedSinceReset calls := rfl

theorem examinedSinceReset_reset_cons (calls : List Call) :
    examinedSinceReset (Call.reset :: calls) = examinedSinceReset calls := rfl

theorem examinedSinceReset_snoc_examine (calls : List Call) (t : String) :
    examinedSinceReset (calls ++ [Call.examine t]) = examinedSinceReset calls ++ [t] := by
  induction calls with
  | nil => rfl
  | cons c rest ih =>
    rw [List.cons_append]
    cases c with
    | examine u =>
      have hmem : Call.reset ∈ rest ++ [Call.examine t] ↔ Call.reset ∈ rest := by simp
      rw [examinedSinceReset_examine_cons, examinedSinceReset_examine_cons, ih]
      by_cases hr : Call.reset ∈ rest
      · rw [if_pos (hmem.2 hr), if_pos hr]
      · rw [if_neg (fun h => hr (hmem.1 h)), if_neg hr, List.cons_append]
    | clue c => rw [examinedSinceReset_clue_cons, examinedSinceReset_clue_cons, ih]
    | reset => rw [examinedSinceReset_reset_cons, examinedSinceReset_reset_cons, ih]

theorem examinedSinceReset_snoc_clue (calls : List Call) (c : String) :
    examinedSinceReset (calls ++ [Call.clue c]) = examinedSinceReset calls := by
  induction calls with
  | nil => rfl
  | cons d rest ih =>
    rw [List.cons_append]
    cases d with
    | examine u =>
      have hmem : Call.reset ∈ rest ++ [Call.clue c] ↔ Call.reset ∈ rest := by simp
      rw [examinedSinceReset_examine_cons, examinedSinceReset_examine_cons, ih]
      by_cases hr : Call.reset ∈ rest
      · rw [if_pos (hmem.2 hr), if_pos hr]
      · rw [if_neg (fun h => hr (hmem.1 h)), if_neg hr]
    | clue c => rw [examinedSinceReset_clue_cons, examinedSinceReset_clue_cons, ih]
    | reset => rw [examinedSinceReset_reset_cons, examinedSinceReset_reset_cons, ih]

theorem examinedSinceReset_snoc_reset (calls : List Call) :
    examinedSinceReset (calls ++ [Call.reset]) = [] := by
  induction calls with
  | nil => rfl
  | cons d rest ih =>
    rw [List.cons_append]
    cases d with
    | examine u =>
      have hmem : Call.reset ∈ rest ++ [Call.reset] := by simp
      rw [examinedSinceReset_examine_cons, if_pos hmem, ih]
    | clue c => rw [examinedSinceReset_clue_cons, ih]
    | reset => rw [examinedSinceReset_reset_cons, ih]

theorem dedup_snoc (types : List String) (x : String) :
    ((types ++ [x]).reverse.dedup).reverse
      = if x ∈ (types.reverse.dedup).reverse then (types.reverse.dedup).reverse
        else (types.reverse.dedup).reverse ++ [x] := by
  rw [List.reverse_append, List.reverse_singleton, List.singleton_append]
  by_cases hx : x ∈ types.reverse
  · rw [List.dedup_cons_of_mem hx, if_pos (by simpa using hx)]
  · rw [List.dedup_cons_of_not_mem hx, if_neg (by simpa using hx), List.reverse_cons]

theorem run_evidenceExamined (calls : List Call) :
    (run new calls).evidenceExamined = ((examinedSinceReset calls).reverse.dedup).reverse := by
  induction calls using List.reverseRecOn with
  | nil => rfl
  | append_singleton calls c ih =>
    rw [run_snoc]
    cases c with
    | examine t =>
      rw [examinedSinceReset_snoc_examine, dedup_snoc, ← ih]
      exact examineEvidence_evidenceExamined _ _
    | clue c =>
      rw [examinedSinceReset_snoc_clue, ← ih]
      exact addClue_evidenceExamined _ _
    | reset =>
      rw [examinedSinceReset_snoc_reset]
      rfl

theorem run_examined_length (calls : List Call) :
    (run new calls).evidenceExamined.length = (examinedSinceReset calls).toFinset.card := by
  rw [run_evidenceExamined, List.length_reverse, ← List.card_toFinset, List.toFinset_reverse]

/-- Claim C30, amended: every state reachable from the object `new` by `examineEvidence`,
`addClue` and `reset` calls with arbitrary strings is the state after some sequence of such
calls, and for every sequence of calls that leads to the state, `getInvestigationProgress`
returns totalEvidence 4, evidenceExamined equal to the number of distinct types examined
since the last reset (the state lists them in order of first examination), and
progressPercentage = evidenceExamined / totalEvidence × 100, which is not negative.
evidenceExamined ≤ totalEvidence holds, and progressPercentage ≤ 100 holds, exactly when at
most four distinct types were examined since the last reset; this is the case whenever the
types examined since the last reset all belong to a list of at most four names. -/
theorem getInvestigationProgress_reachable (s : DetectiveController) (h : Reachable s) :
    (∃ calls : List Call, s = run new calls)
      ∧ ∀ calls : List Call, s = run new calls →
          s.getInvestigationProgress.totalEvidence = 4
            ∧ s.evidenceExamined = ((examinedSinceReset calls).reverse.dedup).reverse
            ∧ s.getInvestigationProgress.evidenceExamined
                = (examinedSinceReset calls).toFinset.card
            ∧ s.getInvestigationProgress.progressPercentage
                = num ((s.getInvestigationProgress.evidenceExamined : ℚ)
                    / (s.getInvestigationProgress.totalEvidence : ℚ) * 100)
            ∧ num 0 ≤ s.getInvestigationProgress.progressPercentage
            ∧ (s.getInvestigationProgress.evidenceExamined
                  ≤ s.getInvestigationProgress.totalEvidence
                ↔ (examinedSinceReset calls).toFinset.card ≤ 4)
            ∧ (s.getInvestigationProgress.progressPercentage ≤ num 100
                ↔ (examinedSinceReset calls).toFinset.card ≤ 4)
            ∧ (∀ names : List String, names.length ≤ 4 →
                (∀ t ∈ examinedSinceReset calls, t ∈ names) →
                s.getInvestigationProgress.evidenceExamined
                    ≤ s.getInvestigationProgress.totalEvidence
                  ∧ s.getInvestigationProgress.progressPercentage ≤ num 100) := by
  refine ⟨reachable_exists_run s h, ?_⟩
  intro calls hs
  obtain ⟨hcase, -⟩ := reachable_invariant s h
  have h4 : s.caseFileData.evidence.length = 4 := by rw [hcase]; rfl
  have hlen : s.evidenceExamined.length = (examinedSinceReset calls).toFinset.card := by
    rw [hs]
    exact run_examined_length calls
  have hlist : s.evidenceExamined = ((examinedSinceReset calls).reverse.dedup).reverse := by
    rw [hs]
    exact run_evidenceExamined calls
  have hpct : s.getInvestigationProgress.progressPercentage
      = num (((examinedSinceReset calls).toFinset.card : ℚ) / 4 * 100) := by
    simp only [getInvestigationProgress, h4, hlen]
    norm_num
  have htot : s.getInvestigationProgress.totalEvidence = 4 := h4
  have hex : s.getInvestigationProgress.evidenceExamined
      = (examinedSinceReset calls).toFinset.card := hlen
  have hiff : s.getInvestigationProgress.progressPercentage ≤ num 100
      ↔ (examinedSinceReset calls).toFinset.card ≤ 4 := by
    rw [hpct, num_le_num]
    constructor
    · intro hq
      have hq4 : ((examinedSinceReset calls).toFinset.card : ℚ) ≤ 4 := by linarith
      exact_mod_cast hq4
    · intro hn
      have hq4 : ((examinedSinceReset calls).toFinset.card : ℚ) ≤ 4 := by exact_mod_cast hn
      linarith
  refine ⟨htot, hlist, hex, ?_, ?_, by rw [hex, htot], hiff, ?_⟩
  · rw [hpct, htot, hex]
    norm_num
  · rw [hpct, num_le_num]
    positivity
  · intro names hnames hsub
    have hle : (examinedSinceReset calls).toFinset.card ≤ 4 := by
      refine le_trans (Finset.card_le_card ?_) (le_trans (List.toFinset_card_le names) hnames)
      intro t ht
      rw [List.mem_toFinset] at ht ⊢
      exact hsub t ht
    exact ⟨by rw [hex, htot]; exact hle, hiff.2 hle⟩

/-- Witness for claim C30: 'agricultural' is examined, the controller is reset, and then
'satellite' is examined twice and 'hydrological' once, with a clue in between; two distinct
types were examined since the reset, both among four names, and the progress is at most
100. -/
theorem getInvestigationProgress_reachable_witness :
    Reachable
        (run new
          [Call.examine "agricultural", Call.reset, Call.examine "satellite",
            Call.clue "note", Call.examine "hydrological", Call.examine "satellite"])
      ∧ examinedSinceReset
          [Call.examine "agricultural", Call.reset, Call.examine "satellite",
            Call.clue "note", Call.examine "hydrological", Call.examine "satellite"]
          = ["satellite", "hydrological", "satellite"]
      ∧ (run new
          [Call.examine "agricultural", Call.reset, Call.examine "satellite",
            Call.clue "note", Call.examine "hydrological",
            Call.examine "satellite"]).getInvestigationProgress.evidenceExamined = 2
      ∧ (run new
          [Call.examine "agricultural", Call.reset, Call.examine "satellite",
            Call.clue "note", Call.examine "hydrological",
            Call.examine "satellite"]).getInvestigationProgress.progressPercentage
          ≤ num 100 :=
  ⟨reachable_run _ new Reachable.init, by decide, by decide,
    (((getInvestigationProgress_reachable _ (reachable_run _ new Reachable.init)).2
      [Call.examine "agricultural", Call.reset, Call.examine "satellite",
        Call.clue "note", Call.examine "hydrological", Call.examine "satellite"]
      rfl).2.2.2.2.2.2.2
      ["satellite", "hydrological", "agricultural", "environmental"] (by decide)
      (by decide)).2⟩

end DetectiveController

namespace MapController

/-! ## The map: outline and area -/

/-- Claim C27, evaluation at the failing inputs: for the years 1995, 2005 and 2015
`updateMapForYear` displays the outline of 1990, 2000 and 2010, whose tabulated areas are
'68,000', '17,160' and '13,900', while `getSeaArea` returns '7,000', the area of 2025, for
each of them; for the year 2000 the two agree. -/
theorem getSeaArea_outline_mismatch :
    (updateMapForYear 1995).displayYear = 1990
      ∧ areas.lookup (updateMapForYear 1995).displayYear = some "68,000"
      ∧ getSeaArea 1995 = some "7,000"
      ∧ (updateMapForYear 1995).area ≠ areas.lookup (updateMapForYear 1995).displayYear
      ∧ (updateMapForYear 2005).displayYear = 2000
      ∧ areas.lookup (updateMapForYear 2005).displayYear = some "17,160"
      ∧ getSeaArea 2005 = some "7,000"
      ∧ (updateMapForYear 2015).displayYear = 2010
      ∧ areas.lookup (updateMapForYear 2015).displayYear = some "13,900"
      ∧ getSeaArea 2015 = some "7,000"
      ∧ (updateMapForYear 2000).area = areas.lookup (updateMapForYear 2000).displayYear := by
  refine ⟨by decide, by decide, by decide, by decide, by decide, by decide, by decide,
    by decide, by decide, by decide, by decide⟩

end MapController

namespace AudioController

/-! ## The audio controller: temporary mute -/

/-- Claim C29, evaluation at the failing input: with the master volume 0.7 of the
constructor, `playSound('chapterTransition', 0.3)` sets the volume of that audio element to
0.21, a volume in [0, 0.7]; after the two steps of `muteTemporary` the masterVolume is 0.7
again, but the volume of the element is 0, not 0.21. -/
theorem muteTemporary_not_undone :
    (new.setupAudioElements.playSound "chapterTransition" 0.3).masterVolume = 0.7
      ∧ (new.setupAudioElements.playSound "chapterTransition" 0.3).audioElements.lookup
          "chapterTransition" = some 0.21
      ∧ (muteTemporaryTimeout
          (muteTemporary (new.setupAudioElements.playSound "chapterTransition" 0.3)).1
          (muteTemporary (new.setupAudioElements.playSound "chapterTransition" 0.3)).2
          ).masterVolume = 0.7
      ∧ (muteTemporaryTimeout
          (muteTemporary (new.setupAudioElements.playSound "chapterTransition" 0.3)).1
          (muteTemporary (new.setupAudioElements.playSound "chapterTransition" 0.3)).2
          ).audioElements.lookup "chapterTransition" = some 0
      ∧ (muteTemporaryTimeout
          (muteTemporary (new.setupAudioElements.playSound "chapterTransition" 0.3)).1
          (muteTemporary (new.setupAudioElements.playSound "chapterTransition" 0.3)).2
          ).audioElements.lookup "chapterTransition"
        ≠ (new.setupAudioElements.playSound "chapterTransition" 0.3).audioElements.lookup
            "chapterTransition" := by
  have hc : new.setupAudioElements.playSound "chapterTransition" 0.3
      = { audioEnabled := true, masterVolume := 0.7, masterGain := none
          audioElements :=
            [("waterFlowing", 0), ("desertWind", 0), ("investigationTheme", 0), ("typing", 0),
             ("buttonClick", 0), ("chapterTransition", 0.21), ("success", 0),
             ("dramatic", 0)] } := by
    simp [playSound, setupAudioElements, new]
    norm_num
  rw [hc]
  have hm : muteTemporaryTimeout
      (muteTemporary
        { audioEnabled := true, masterVolume := 0.7, masterGain := none
          audioElements :=
            [("waterFlowing", 0), ("desertWind", 0), ("investigationTheme", 0), ("typing", 0),
             ("buttonClick", 0), ("chapterTransition", 0.21), ("success", 0),
             ("dramatic", 0)] }).1
      (muteTemporary
        { audioEnabled := true, masterVolume := 0.7, masterGain := none
          audioElements :=
            [("waterFlowing", 0), ("desertWind", 0), ("investigationTheme", 0), ("typing", 0),
             ("buttonClick", 0), ("chapterTransition", 0.21), ("success", 0),
             ("dramatic", 0)] }).2
      = { audioEnabled := true, masterVolume := 0.7, masterGain := none
          audioElements :=
            [("waterFlowing", 0), ("desertWind", 0), ("investigationTheme", 0), ("typing", 0),
             ("buttonClick", 0), ("chapterTransition", 0), ("success", 0),
             ("dramatic", 0)] } := by
    simp [muteTemporaryTimeout, muteTemporary, setMasterVolume]
    norm_num
  rw [hm]
  refine ⟨rfl, ?_, rfl, ?_, ?_⟩
  · simp [List.lookup]
  · simp [List.lookup]
  · simp [List.lookup]
    norm_num

end AudioController

end AralSea
